import Mathlib

/-!
# nPart: a shallow embedding of `main.cpp`

The program opens a window, draws a wireframe cube and a population of point
particles, and copies the particle positions between two vertex buffers by
transform feedback on every frame.

Layout of this file:

* vectors, matrices and the `glm` functions the program calls;
* the OpenGL context the program talks to (`World`), with one definition per
  entry point the program uses: each appends to the log of calls, and the ones
  that decide which buffer a draw reads and writes also update the bindings
  and the buffer stores;
* the environment (`Env`): what the C library, GLFW, GLEW and the GL driver
  answer;
* the program, function by function, under the names of `main.cpp`;
* the theorems.

Conventions:

* scalars are elements of an ordered field `α`, so arithmetic is exact; the
  transcendental functions come from a `Libm α` record, and the theorems that
  need trigonometry take the real functions;
* `exit(-1)` is the result `none`;
* the shaders are kept as their text, and the bodies of `main()` of the three
  vertex processing shaders are transcribed as functions; a draw call is given
  the meaning of the program in use as a `Pipeline`;
* `onGLFWError`, `onDebug`, the empty callbacks' bodies, `initPartUpdater` and
  `updatePart` change nothing the theorems speak about; the last two are never
  called.
-/

namespace NPart

/-! ## Vectors and matrices -/

/-- Three component vector `glm::vec3`. -/
structure Vec3 (α : Type) where
  x : α
  y : α
  z : α

/-- Four component vector `glm::vec4`. -/
structure Vec4 (α : Type) where
  x : α
  y : α
  z : α
  w : α

/-- Column major matrix `glm::mat4`: `m c r` is `m[c][r]`, column `c`, row `r`. -/
abbrev Mat4 (α : Type) := Fin 4 → Fin 4 → α

/-- Transcendental functions of the C library used by the program and by `glm`. -/
structure Libm (α : Type) where
  pi : α
  cos : α → α
  sin : α → α
  tan : α → α
  sqrt : α → α

section Glm

variable {α : Type} [LinearOrderedField α]

/-- Conversion `glm::vec3(v)` of a `vec4`: the first three components. -/
def Vec4.xyz (v : Vec4 α) : Vec3 α := ⟨v.x, v.y, v.z⟩

/-- Scaling `v *= s` of a `vec4`: every component is multiplied. -/
def Vec4.scale (v : Vec4 α) (s : α) : Vec4 α := ⟨v.x * s, v.y * s, v.z * s, v.w * s⟩

/-- Dot product `glm::dot` of two `vec3`. -/
def Vec3.dot (a b : Vec3 α) : α := a.x * b.x + a.y * b.y + a.z * b.z

/-- Dot product `glm::dot` of two `vec4`. -/
def Vec4.dot (a b : Vec4 α) : α := a.x * b.x + a.y * b.y + a.z * b.z + a.w * b.w

/-- Cross product `glm::cross`. -/
def Vec3.cross (a b : Vec3 α) : Vec3 α :=
  ⟨a.y * b.z - b.y * a.z, a.z * b.x - b.z * a.x, a.x * b.y - b.x * a.y⟩

/-- Difference of two `vec3`. -/
def Vec3.sub (a b : Vec3 α) : Vec3 α := ⟨a.x - b.x, a.y - b.y, a.z - b.z⟩

/-- Unit vector `glm::normalize(v)`, that is `v * inversesqrt(dot(v, v))`. -/
def Vec3.normalize (L : Libm α) (v : Vec3 α) : Vec3 α :=
  let k := 1 / L.sqrt (v.dot v)
  ⟨v.x * k, v.y * k, v.z * k⟩

/-- Diagonal matrix `glm::mat4(s)`. -/
def Mat4.diag (s : α) : Mat4 α := fun c r => if c = r then s else 0

/-- Matrix product `a * b` of `glm`. -/
def Mat4.mul (a b : Mat4 α) : Mat4 α :=
  fun c r => a 0 r * b c 0 + a 1 r * b c 1 + a 2 r * b c 2 + a 3 r * b c 3

/-- Matrix times vector `m * v` of `glm`. -/
def Mat4.mulVec (m : Mat4 α) (v : Vec4 α) : Vec4 α :=
  ⟨m 0 0 * v.x + m 1 0 * v.y + m 2 0 * v.z + m 3 0 * v.w,
   m 0 1 * v.x + m 1 1 * v.y + m 2 1 * v.z + m 3 1 * v.w,
   m 0 2 * v.x + m 1 2 * v.y + m 2 2 * v.z + m 3 2 * v.w,
   m 0 3 * v.x + m 1 3 * v.y + m 2 3 * v.z + m 3 3 * v.w⟩

/-- Degrees to radians, `glm::radians`. -/
def radians (L : Libm α) (degrees : α) : α := degrees * (L.pi / 180)

/-- Right handed perspective projection `glm::perspective(fovy, aspect, zNear, zFar)`
with depth range -1 to 1: a zero matrix with five entries set. -/
def perspective (L : Libm α) (fovy aspect zNear zFar : α) : Mat4 α :=
  let tanHalfFovy := L.tan (fovy / 2)
  fun c r =>
    if c = 0 ∧ r = 0 then 1 / (aspect * tanHalfFovy)
    else if c = 1 ∧ r = 1 then 1 / tanHalfFovy
    else if c = 2 ∧ r = 2 then -(zFar + zNear) / (zFar - zNear)
    else if c = 2 ∧ r = 3 then -1
    else if c = 3 ∧ r = 2 then -(2 * zFar * zNear) / (zFar - zNear)
    else 0

/-- Right handed view matrix `glm::lookAt(eye, center, up)`. -/
def lookAt (L : Libm α) (eye center up : Vec3 α) : Mat4 α :=
  let f := (center.sub eye).normalize L
  let s := (f.cross up).normalize L
  let u := s.cross f
  fun c r =>
    match c, r with
    | 0, 0 => s.x
    | 1, 0 => s.y
    | 2, 0 => s.z
    | 0, 1 => u.x
    | 1, 1 => u.y
    | 2, 1 => u.z
    | 0, 2 => -f.x
    | 1, 2 => -f.y
    | 2, 2 => -f.z
    | 3, 0 => -(s.dot eye)
    | 3, 1 => -(u.dot eye)
    | 3, 2 => f.dot eye
    | 3, 3 => 1
    | _, _ => 0

/-- Rotation `glm::rotate(m, angle, v)`: `m` times the rotation by `angle`
about the axis `v`. -/
def rotate (L : Libm α) (m : Mat4 α) (angle : α) (v : Vec3 α) : Mat4 α :=
  let c := L.cos angle
  let s := L.sin angle
  let axis := v.normalize L
  let temp : Vec3 α := ⟨(1 - c) * axis.x, (1 - c) * axis.y, (1 - c) * axis.z⟩
  let r00 := c + temp.x * axis.x
  let r01 := temp.x * axis.y + s * axis.z
  let r02 := temp.x * axis.z - s * axis.y
  let r10 := temp.y * axis.x - s * axis.z
  let r11 := c + temp.y * axis.y
  let r12 := temp.y * axis.z + s * axis.x
  let r20 := temp.z * axis.x + s * axis.y
  let r21 := temp.z * axis.y - s * axis.x
  let r22 := c + temp.z * axis.z
  fun col row =>
    match col with
    | 0 => m 0 row * r00 + m 1 row * r01 + m 2 row * r02
    | 1 => m 0 row * r10 + m 1 row * r11 + m 2 row * r12
    | 2 => m 0 row * r20 + m 1 row * r21 + m 2 row * r22
    | 3 => m 3 row

end Glm

/-! ## The OpenGL context -/

/-- Buffer binding points the program uses. -/
inductive BufferTarget where
  | GL_ARRAY_BUFFER
  | GL_ELEMENT_ARRAY_BUFFER
  | GL_TRANSFORM_FEEDBACK_BUFFER
  deriving DecidableEq, Repr

/-- Primitive modes the program draws with. -/
inductive Primitive where
  | GL_POINTS
  | GL_LINES
  deriving DecidableEq, Repr

/-- Shader stage enumerants (values of `glew.h`). -/
abbrev GLenum := Nat

/-- Stage enumerant `GL_VERTEX_SHADER`. -/
def GL_VERTEX_SHADER : GLenum := 0x8B31

/-- Stage enumerant `GL_FRAGMENT_SHADER`. -/
def GL_FRAGMENT_SHADER : GLenum := 0x8B30

/-- Stage enumerant `GL_GEOMETRY_SHADER`. -/
def GL_GEOMETRY_SHADER : GLenum := 0x8DD9

/-- One entry of the log of OpenGL calls, with the arguments that identify it. -/
inductive Call where
  | glViewport (x y w h : Int)
  | glScissor (x y w h : Int)
  | glCreateProgram
  | glCreateShader (type : GLenum)
  | glShaderSource (so : Nat)
  | glCompileShader (so : Nat)
  | glGetShaderiv (so : Nat) (pname : String)
  | glGetShaderInfoLog (so : Nat)
  | glAttachShader (po so : Nat)
  | glTransformFeedbackVaryings (po : Nat) (names : List String)
  | glLinkProgram (po : Nat)
  | glGetProgramiv (po : Nat) (pname : String)
  | glGetProgramInfoLog (po : Nat)
  | glDetachShader (po so : Nat)
  | glDeleteShader (so : Nat)
  | glUseProgram (po : Nat)
  | glGetAttribLocation (po : Nat) (name : String)
  | glGetUniformLocation (po : Nat) (name : String)
  | glUniformMatrix4fv (loc : Int)
  | glBindVertexArray (vao : Nat)
  | glBindBuffer (target : BufferTarget) (buffer : Nat)
  | glBufferData (target : BufferTarget) (size : Nat)
  | glMapBuffer (target : BufferTarget)
  | glUnmapBuffer (target : BufferTarget)
  | glVertexAttribPointer (loc : Int)
  | glEnableVertexAttribArray (loc : Int)
  | glBindTransformFeedback (xfb : Nat)
  | glTransformFeedbackBufferBase (xfb index buffer : Nat)
  | glBeginTransformFeedback (mode : Primitive)
  | glEndTransformFeedback
  | glDrawArrays (mode : Primitive) (first count : Nat)
  | glDrawElements (mode : Primitive) (count : Nat)
  | glEnable (cap : String)
  | glDepthFunc
  | glClearColor
  | glClear
  | glDebugMessageCallback
  | glGenVertexArrays (n : Nat)
  | glGenBuffers (n : Nat)
  | glGenTransformFeedbacks (n : Nat)
  | glDeleteProgram (po : Nat)
  | glDeleteVertexArrays (n : Nat)
  | glDeleteBuffers (n : Nat)
  | glDeleteTransformFeedbacks (n : Nat)
  deriving DecidableEq, Repr

/-- What one draw call consumed and produced. -/
structure Draw (α : Type) where
  /-- program in use -/
  program : Nat
  /-- vertex array bound -/
  vertexArray : Nat
  /-- buffer feeding the vertex attribute the program reads -/
  source : Nat
  /-- buffer bound at index 0 of the transform feedback object while capture
  is active -/
  feedback : Option Nat
  /-- attribute records fetched, in order (`none` is an undefined record) -/
  vertices : List (Option (Vec4 α))
  /-- clip space positions rasterised, in order -/
  positions : List (Option (Vec4 α))

/-- Meaning of a linked program at a draw call: the location of the vertex
attribute it reads, the clip space position it writes for a vertex, and the
varying recorded by transform feedback, when the program declares one. -/
structure Pipeline (α : Type) where
  attrib : Int
  position : Vec4 α → Vec4 α
  varying : Option (Vec4 α → Vec4 α)

/-- Client data handed to `glBufferData`. -/
inductive Payload (α : Type) where
  | null
  | floats (v : List (Vec4 α))
  | ushorts (v : List Nat)

/-- State of the OpenGL context and of the window, with the log of calls. -/
structure World (α : Type) where
  /-- OpenGL calls issued so far, oldest first -/
  trace : List Call
  /-- last object name handed out -/
  names : Nat
  /-- program in use -/
  program : Nat
  /-- vertex array bound -/
  vertexArray : Nat
  /-- buffer bound to `GL_ARRAY_BUFFER` -/
  arrayBuffer : Nat
  /-- buffer bound to the generic `GL_TRANSFORM_FEEDBACK_BUFFER` point -/
  feedbackBuffer : Nat
  /-- transform feedback object bound -/
  feedbackObject : Nat
  /-- whether a capture session is open -/
  feedbackActive : Bool
  /-- per vertex array: the element array buffer -/
  elementBuffer : Nat → Nat
  /-- per vertex array and attribute location: the buffer that was bound to
  `GL_ARRAY_BUFFER` when `glVertexAttribPointer` ran -/
  attribBuffer : Nat → Int → Nat
  /-- per vertex array and attribute location: array access enabled -/
  attribEnabled : Nat → Int → Bool
  /-- per transform feedback object and index: the buffer bound there -/
  feedbackBase : Nat → Nat → Nat
  /-- per buffer: its data store as `vec4` records, `none` where undefined -/
  store : Nat → List (Option (Vec4 α))
  /-- per buffer: its data store as `GLushort` indices -/
  elements : Nat → List Nat
  /-- buffer whose store is mapped into client memory -/
  mapped : Nat
  /-- per program and uniform location: the matrix uploaded -/
  uniform : Nat → Int → Mat4 α
  /-- draw calls executed so far, oldest first -/
  draws : List (Draw α)
  /-- number of `rand()` calls made -/
  rands : Nat
  /-- number of `glfwGetTime()` calls made -/
  clocks : Nat
  /-- number of `glfwPollEvents()` calls made -/
  polls : Nat
  /-- close flag of the window -/
  shouldClose : Bool

section Context

variable {α : Type} [LinearOrderedField α]

/-- Append a call to the log. -/
def World.log (g : World α) (c : Call) : World α := { g with trace := g.trace ++ [c] }

/-- Buffer bound to a binding point. -/
def World.binding (g : World α) (target : BufferTarget) : Nat :=
  match target with
  | .GL_ARRAY_BUFFER => g.arrayBuffer
  | .GL_ELEMENT_ARRAY_BUFFER => g.elementBuffer g.vertexArray
  | .GL_TRANSFORM_FEEDBACK_BUFFER => g.feedbackBuffer

def glViewport (x y w h : Int) (g : World α) : World α := g.log (.glViewport x y w h)

def glScissor (x y w h : Int) (g : World α) : World α := g.log (.glScissor x y w h)

def glEnable (cap : String) (g : World α) : World α := g.log (.glEnable cap)

def glDepthFunc (g : World α) : World α := g.log .glDepthFunc

def glClearColor (g : World α) : World α := g.log .glClearColor

def glClear (g : World α) : World α := g.log .glClear

def glDebugMessageCallback (g : World α) : World α := g.log .glDebugMessageCallback

/-- A fresh program name. -/
def glCreateProgram (g : World α) : Nat × World α :=
  (g.names + 1, { g.log .glCreateProgram with names := g.names + 1 })

/-- A fresh shader name. -/
def glCreateShader (type : GLenum) (g : World α) : Nat × World α :=
  (g.names + 1, { g.log (.glCreateShader type) with names := g.names + 1 })

def glShaderSource (so : Nat) (g : World α) : World α := g.log (.glShaderSource so)

def glCompileShader (so : Nat) (g : World α) : World α := g.log (.glCompileShader so)

def glGetShaderiv (so : Nat) (pname : String) (g : World α) : World α :=
  g.log (.glGetShaderiv so pname)

def glGetShaderInfoLog (so : Nat) (g : World α) : World α := g.log (.glGetShaderInfoLog so)

def glAttachShader (po so : Nat) (g : World α) : World α := g.log (.glAttachShader po so)

def glTransformFeedbackVaryings (po : Nat) (names : List String) (g : World α) : World α :=
  g.log (.glTransformFeedbackVaryings po names)

def glLinkProgram (po : Nat) (g : World α) : World α := g.log (.glLinkProgram po)

def glGetProgramiv (po : Nat) (pname : String) (g : World α) : World α :=
  g.log (.glGetProgramiv po pname)

def glGetProgramInfoLog (po : Nat) (g : World α) : World α := g.log (.glGetProgramInfoLog po)

def glDetachShader (po so : Nat) (g : World α) : World α := g.log (.glDetachShader po so)

def glDeleteShader (so : Nat) (g : World α) : World α := g.log (.glDeleteShader so)

def glUseProgram (po : Nat) (g : World α) : World α :=
  { g.log (.glUseProgram po) with program := po }

def glUniformMatrix4fv (loc : Int) (m : Mat4 α) (g : World α) : World α :=
  { g.log (.glUniformMatrix4fv loc) with
    uniform := Function.update g.uniform g.program (Function.update (g.uniform g.program) loc m) }

def glBindVertexArray (vao : Nat) (g : World α) : World α :=
  { g.log (.glBindVertexArray vao) with vertexArray := vao }

/-- Bind a buffer; the element array binding belongs to the bound vertex array. -/
def glBindBuffer (target : BufferTarget) (buffer : Nat) (g : World α) : World α :=
  match target with
  | .GL_ARRAY_BUFFER => { g.log (.glBindBuffer target buffer) with arrayBuffer := buffer }
  | .GL_ELEMENT_ARRAY_BUFFER =>
    { g.log (.glBindBuffer target buffer) with
      elementBuffer := Function.update g.elementBuffer g.vertexArray buffer }
  | .GL_TRANSFORM_FEEDBACK_BUFFER =>
    { g.log (.glBindBuffer target buffer) with feedbackBuffer := buffer }

/-- Replace the data store of the buffer bound to `target`: `size` bytes, that
is `size / 16` records of a `vec4` of floats, undefined when `data` is null. -/
def glBufferData (target : BufferTarget) (size : Nat) (data : Payload α) (g : World α) :
    World α :=
  let b := g.binding target
  match data with
  | .null =>
    { g.log (.glBufferData target size) with
      store := Function.update g.store b (List.replicate (size / 16) none)
      elements := Function.update g.elements b [] }
  | .floats v =>
    { g.log (.glBufferData target size) with
      store := Function.update g.store b ((v.take (size / 16)).map some)
      elements := Function.update g.elements b [] }
  | .ushorts v =>
    { g.log (.glBufferData target size) with
      store := Function.update g.store b []
      elements := Function.update g.elements b (v.take (size / 2)) }

/-- Map the store of the buffer bound to `target`. -/
def glMapBuffer (target : BufferTarget) (g : World α) : World α :=
  { g.log (.glMapBuffer target) with mapped := g.binding target }

/-- Store through the mapped pointer: `*(p + i) = v`. -/
def World.writeMapped (g : World α) (i : Nat) (v : Vec4 α) : World α :=
  { g with store := Function.update g.store g.mapped ((g.store g.mapped).set i (some v)) }

def glUnmapBuffer (target : BufferTarget) (g : World α) : World α :=
  { g.log (.glUnmapBuffer target) with mapped := 0 }

/-- Record the buffer bound to `GL_ARRAY_BUFFER` as the source of attribute
`loc` of the bound vertex array. -/
def glVertexAttribPointer (loc : Int) (g : World α) : World α :=
  { g.log (.glVertexAttribPointer loc) with
    attribBuffer := Function.update g.attribBuffer g.vertexArray
      (Function.update (g.attribBuffer g.vertexArray) loc g.arrayBuffer) }

def glEnableVertexAttribArray (loc : Int) (g : World α) : World α :=
  { g.log (.glEnableVertexAttribArray loc) with
    attribEnabled := Function.update g.attribEnabled g.vertexArray
      (Function.update (g.attribEnabled g.vertexArray) loc true) }

def glBindTransformFeedback (xfb : Nat) (g : World α) : World α :=
  { g.log (.glBindTransformFeedback xfb) with feedbackObject := xfb }

def glTransformFeedbackBufferBase (xfb index buffer : Nat) (g : World α) : World α :=
  { g.log (.glTransformFeedbackBufferBase xfb index buffer) with
    feedbackBase := Function.update g.feedbackBase xfb
      (Function.update (g.feedbackBase xfb) index buffer) }

def glBeginTransformFeedback (mode : Primitive) (g : World α) : World α :=
  { g.log (.glBeginTransformFeedback mode) with feedbackActive := true }

def glEndTransformFeedback (g : World α) : World α :=
  { g.log .glEndTransformFeedback with feedbackActive := false }

/-- Records fetched for attribute `loc` of the bound vertex array: the
records of its source buffer when array access is enabled, the constant
`(0, 0, 0, 1)` otherwise. -/
def World.fetch (g : World α) (loc : Int) (first count : Nat) : List (Option (Vec4 α)) :=
  if g.attribEnabled g.vertexArray loc then
    ((g.store (g.attribBuffer g.vertexArray loc)).drop first).take count
  else List.replicate count (some ⟨0, 0, 0, 1⟩)

/-- Records written by a capture into a store: from the start of the store, no
further than its end. -/
def capture (old new : List (Option (Vec4 α))) : List (Option (Vec4 α)) :=
  new.take old.length ++ old.drop new.length

/-- Draw `count` vertices starting at `first`; `P` is the meaning of the program
in use, supplied at the call. While a capture session is open the varying of
every vertex is recorded into the buffer bound at index 0 of the bound
transform feedback object. -/
def glDrawArrays (P : Pipeline α) (mode : Primitive) (first count : Nat) (g : World α) :
    World α :=
  let verts := g.fetch P.attrib first count
  let target := if g.feedbackActive then some (g.feedbackBase g.feedbackObject 0) else none
  let store :=
    match target, P.varying with
    | some b, some f => Function.update g.store b (capture (g.store b) (verts.map (Option.map f)))
    | _, _ => g.store
  { g.log (.glDrawArrays mode first count) with
    store := store
    draws := g.draws ++ [{ program := g.program, vertexArray := g.vertexArray,
                           source := g.attribBuffer g.vertexArray P.attrib,
                           feedback := target, vertices := verts,
                           positions := verts.map (Option.map P.position) }] }

/-- Draw `count` vertices selected by the indices of the element array buffer
of the bound vertex array. -/
def glDrawElements (P : Pipeline α) (mode : Primitive) (count : Nat) (g : World α) : World α :=
  let src := g.store (g.attribBuffer g.vertexArray P.attrib)
  let verts := ((g.elements (g.elementBuffer g.vertexArray)).take count).map
    (fun i => (src.get? i).join)
  { g.log (.glDrawElements mode count) with
    draws := g.draws ++ [{ program := g.program, vertexArray := g.vertexArray,
                           source := g.attribBuffer g.vertexArray P.attrib,
                           feedback := none, vertices := verts,
                           positions := verts.map (Option.map P.position) }] }

/-- Names `g.names + 1, ..., g.names + n` as an array of `n` entries. -/
def World.fresh (g : World α) (n : Nat) : Nat → Nat := fun i => if i < n then g.names + 1 + i else 0

/-- Generate `n` unused vertex array names. -/
def glGenVertexArrays (n : Nat) (g : World α) : (Nat → Nat) × World α :=
  (g.fresh n, { g.log (.glGenVertexArrays n) with names := g.names + n })

/-- Generate `n` unused buffer names. -/
def glGenBuffers (n : Nat) (g : World α) : (Nat → Nat) × World α :=
  (g.fresh n, { g.log (.glGenBuffers n) with names := g.names + n })

/-- Generate `n` unused transform feedback object names. -/
def glGenTransformFeedbacks (n : Nat) (g : World α) : (Nat → Nat) × World α :=
  (g.fresh n, { g.log (.glGenTransformFeedbacks n) with names := g.names + n })

def glDeleteProgram (po : Nat) (g : World α) : World α := g.log (.glDeleteProgram po)

def glDeleteVertexArrays (n : Nat) (g : World α) : World α := g.log (.glDeleteVertexArrays n)

def glDeleteBuffers (n : Nat) (g : World α) : World α := g.log (.glDeleteBuffers n)

def glDeleteTransformFeedbacks (n : Nat) (g : World α) : World α :=
  g.log (.glDeleteTransformFeedbacks n)

end Context

/-! ## The environment -/

/-- Input event delivered by `glfwPollEvents` to the callback registered for it. -/
inductive Event (α : Type) where
  | resize (w h : Int)
  | focus
  | key (key action : Int)
  | mouseButton
  | cursorPos
  | cursorEnter
  | scroll (dx dy : α)

/-- Everything the program obtains from outside: the C library, the random
generator, the clock, the window system and the answers of the GL driver. -/
structure Env (α : Type) where
  libm : Libm α
  /-- largest value `rand()` returns -/
  RAND_MAX : Nat
  /-- value of the `k`-th call of `rand()` -/
  rand : Nat → Nat
  /-- value of the `k`-th call of `glfwGetTime()` -/
  time : Nat → α
  /-- events delivered by the `k`-th call of `glfwPollEvents()` -/
  events : Nat → List (Event α)
  /-- result of `glfwInit()` -/
  glfwInit : Bool
  /-- result of `glfwGetPrimaryMonitor()` -/
  monitor : Option Nat
  /-- width and height of the mode returned by `glfwGetVideoMode` -/
  videoMode : Option (Int × Int)
  /-- result of `glfwCreateWindow` -/
  window : Option Nat
  /-- whether `glewInit()` returns `GLEW_OK` -/
  glewInit : Bool
  /-- `GL_COMPILE_STATUS` of a shader of the given stage and text -/
  compileStatus : GLenum → String → Bool
  /-- `GL_LINK_STATUS` of a program -/
  linkStatus : Nat → Bool
  /-- location of a named attribute of a program -/
  attribLocation : Nat → String → Int
  /-- location of a named uniform of a program -/
  uniformLocation : Nat → String → Int

/-! ## The program -/

def PRG_CUBE : Nat := 0
def PRG_COMPUTE : Nat := 1
def PRG_PARTICLE : Nat := 2
def PRG_COUNT : Nat := 3

def VAO_CUBE : Nat := 0
def VAO_COMPUTE : Nat := 1
def VAO_PARTICLE0 : Nat := 2
def VAO_PARTICLE1 : Nat := 3
def VAO_COUNT : Nat := 4

def VBO_CUBE : Nat := 0
def VBO_COMPUTE : Nat := 1
def VBO_PARTICLE0 : Nat := 2
def VBO_PARTICLE1 : Nat := 3
def VBO_COUNT : Nat := 4

def EBO_CUBE : Nat := 0
def EBO_COUNT : Nat := 1

def XFB_PARTICLE : Nat := 0
def XFB_COUNT : Nat := 1

/-- Action `GLFW_RELEASE` of `glfw3.h`. -/
def GLFW_RELEASE : Int := 0

/-- Key `GLFW_KEY_ESCAPE` of `glfw3.h`. -/
def GLFW_KEY_ESCAPE : Int := 256

/-- Key `GLFW_KEY_R` of `glfw3.h`. -/
def GLFW_KEY_R : Int := 82

def cubeVertShader : String :=
  "#version 420 core\nin vec4 vertPos;uniform mat4 mvpMat;void main()\x7b  gl_Position = mvpMat * vertPos;\x7d"

def cubeFragShader : String :=
  "#version 420 core\nout vec4 fragColor;void main()\x7b  fragColor = vec4(0.0f,1.0f,1.0f,1.0f);\x7d"

def partVertShader : String :=
  "#version 420 core\nin vec4 partPos;out vec4 pos;uniform mat4 mvpMat;void main()\x7b  pos = partPos;  gl_Position = mvpMat * partPos;\x7d"

def partGeomShader : String :=
  "#version 420 core\nlayout (points) in;layout (points, max_vertices=1) out;in vec4 pos[];out vec4 partPosNext;uniform samplerBuffer geom;void main()\x7b  partPosNext = pos[0];  gl_Position = gl_in[0].gl_Position;  EmitVertex();  EndPrimitive();\x7d"

def partFragShader : String :=
  "#version 420 core\nout vec4 fragColor;void main()\x7b  fragColor = vec4(1.0f,1.0f,1.0f,1.0f);\x7d"

def cubeInd : List Nat :=
  [0,1,2,3,4,5,6,7,
   0,2,1,3,4,6,5,7,
   0,4,1,5,2,6,3,7]

/-- The record `UserData` (the window handle is a number). -/
structure UserData (α : Type) where
  wnd : Nat
  t : α
  proj : Mat4 α
  view : Mat4 α
  model : Mat4 α
  fov : α
  eye : Vec4 α
  autoRot : Bool
  prg : Nat → Nat
  vao : Nat → Nat
  vbo : Nat → Nat
  ebo : Nat → Nat
  xfb : Nat → Nat
  popCount : Nat
  frame : Nat

section Program

variable {α : Type} [LinearOrderedField α]

def cubeVert : List (Vec4 α) :=
  [⟨-1, -1, -1, 1⟩,
   ⟨-1, -1, 1, 1⟩,
   ⟨-1, 1, -1, 1⟩,
   ⟨-1, 1, 1, 1⟩,
   ⟨1, -1, -1, 1⟩,
   ⟨1, -1, 1, 1⟩,
   ⟨1, 1, -1, 1⟩,
   ⟨1, 1, 1, 1⟩]

/-- Body of `main()` of `cubeVertShader`: the value of `gl_Position`. -/
def cubeVertMain (mvpMat : Mat4 α) (vertPos : Vec4 α) : Vec4 α := mvpMat.mulVec vertPos

/-- Body of `main()` of `partVertShader`: the values of `pos` and `gl_Position`. -/
def partVertMain (mvpMat : Mat4 α) (partPos : Vec4 α) : Vec4 α × Vec4 α :=
  (partPos, mvpMat.mulVec partPos)

/-- Body of `main()` of `partGeomShader` on one point, given `pos[0]` and
`gl_in[0].gl_Position`: the values of `partPosNext` and `gl_Position` of the
single vertex emitted. -/
def partGeomMain (v : Vec4 α × Vec4 α) : Vec4 α × Vec4 α := (v.1, v.2)

/-- Meaning of the cube program: reads `vertPos`, captures nothing. -/
def cubePipeline (vertPosLoc : Int) (mvpMat : Mat4 α) : Pipeline α :=
  { attrib := vertPosLoc, position := cubeVertMain mvpMat, varying := none }

/-- Meaning of the particle program: reads `partPos`, and `partPosNext` is the
varying named in the call of `loadShaders`. -/
def partPipeline (partPosLoc : Int) (mvpMat : Mat4 α) : Pipeline α :=
  { attrib := partPosLoc
    position := fun p => (partGeomMain (partVertMain mvpMat p)).2
    varying := some (fun p => (partGeomMain (partVertMain mvpMat p)).1) }

/-- Next value of `rand()`. -/
def rand (env : Env α) (g : World α) : Nat × World α :=
  (env.rand g.rands, { g with rands := g.rands + 1 })

/-- Next value of `glfwGetTime()`. -/
def glfwGetTime (env : Env α) (g : World α) : α × World α :=
  (env.time g.clocks, { g with clocks := g.clocks + 1 })

def glGetAttribLocation (env : Env α) (po : Nat) (name : String) (g : World α) :
    Int × World α :=
  (env.attribLocation po name, g.log (.glGetAttribLocation po name))

def glGetUniformLocation (env : Env α) (po : Nat) (name : String) (g : World α) :
    Int × World α :=
  (env.uniformLocation po name, g.log (.glGetUniformLocation po name))

/-- Callback `onResize`. The user pointer is the record itself, so the null
check never fires. -/
def onResize (env : Env α) (w h : Int) (d : UserData α) (g : World α) :
    UserData α × World α :=
  let aspect : α := (w : α) / (h : α)
  let g := glViewport 0 0 w h g
  let g := glScissor 0 0 w h g
  ({ d with proj := perspective env.libm (radians env.libm d.fov) aspect (1 / 100) 100 }, g)

/-- Callback `onKey`. -/
def onKey (key action : Int) (d : UserData α) (g : World α) : UserData α × World α :=
  if action ≠ GLFW_RELEASE then (d, g)
  else if key = GLFW_KEY_ESCAPE then (d, { g with shouldClose := true })
  else if key = GLFW_KEY_R then ({ d with autoRot := !d.autoRot }, g)
  else (d, g)

/-- Callback `onScroll`. -/
def onScroll (env : Env α) (dy : α) (d : UserData α) (g : World α) : UserData α × World α :=
  let d := if dy > 0 then { d with eye := d.eye.scale (11 / 10) }
    else if dy < 0 then { d with eye := d.eye.scale (9 / 10) }
    else d
  ({ d with view := lookAt env.libm d.eye.xyz ⟨0, 0, 0⟩ ⟨0, 1, 0⟩ }, g)

/-- The loop of `loadShaders` over the stages, on the pairs `(type[i], shader[i])`
from index `i` on: `sos` holds the shader objects made so far. The result is
`none` when a stage fails to compile. -/
def compileStages (env : Env α) (po : Nat) :
    List (GLenum × String) → List Nat → World α → Option (List Nat) × World α
  | [], sos, g => (some sos, g)
  | (ty, text) :: rest, sos, g =>
    let (so, g) := glCreateShader ty g
    let g := glShaderSource so g
    let g := glCompileShader so g
    let g := glGetShaderiv so "GL_COMPILE_STATUS" g
    if !env.compileStatus ty text then
      let g := glGetShaderiv so "GL_INFO_LOG_LENGTH" g
      let g := glGetShaderInfoLog so g
      (none, g)
    else
      let g := glAttachShader po so g
      compileStages env po rest (sos ++ [so]) g

/-- Function `loadShaders`: the program object, 0 on failure. -/
def loadShaders (env : Env α) (type : List GLenum) (shader : List String)
    (xfb : List String) (g : World α) : Nat × World α :=
  if type.isEmpty || shader.isEmpty then (0, g)
  else if type.length ≠ shader.length then (0, g)
  else
    let (po, g) := glCreateProgram g
    match compileStages env po (type.zip shader) [] g with
    | (none, g) => (0, g)
    | (some sos, g) =>
      let g := if !xfb.isEmpty then glTransformFeedbackVaryings po xfb g else g
      let g := glLinkProgram po g
      let g := glGetProgramiv po "GL_LINK_STATUS" g
      if !env.linkStatus po then
        let g := glGetProgramiv po "GL_INFO_LOG_LENGTH" g
        let g := glGetProgramInfoLog po g
        (0, g)
      else
        let g := sos.foldl (fun g so => glDeleteShader so (glDetachShader po so g)) g
        (po, g)

/-- Function `initCubeRenderer`; `none` is `exit(-1)`. -/
def initCubeRenderer (env : Env α) (d : UserData α) (g : World α) :
    Option (UserData α × World α) :=
  let (prg, g) := loadShaders env [GL_VERTEX_SHADER, GL_FRAGMENT_SHADER]
    [cubeVertShader, cubeFragShader] [] g
  if prg = 0 then none
  else
    let d := { d with prg := Function.update d.prg PRG_CUBE prg }
    let vao := d.vao VAO_CUBE
    let vbo := d.vbo VBO_CUBE
    let ebo := d.ebo EBO_CUBE
    let g := glUseProgram prg g
    let (vertPosLoc, g) := glGetAttribLocation env prg "vertPos" g
    if vertPosLoc < 0 then none
    else
      let g := glBindVertexArray vao g
      let g := glBindBuffer .GL_ARRAY_BUFFER vbo g
      let g := glBufferData .GL_ARRAY_BUFFER (8 * 16) (.floats cubeVert) g
      let g := glBindBuffer .GL_ELEMENT_ARRAY_BUFFER ebo g
      let g := glBufferData .GL_ELEMENT_ARRAY_BUFFER (24 * 2) (.ushorts cubeInd) g
      let g := glVertexAttribPointer vertPosLoc g
      let g := glEnableVertexAttribArray vertPosLoc g
      let g := glBindVertexArray 0 g
      let g := glBindBuffer .GL_ARRAY_BUFFER 0 g
      let g := glBindBuffer .GL_ELEMENT_ARRAY_BUFFER 0 g
      let g := glUseProgram 0 g
      some (d, g)

/-- The point stored for one particle of `initPartRenderer`, from the three
values `rand()` returned for it. -/
def initialParticle (L : Libm α) (RAND_MAX : Nat) (r1 r2 r3 : Nat) : Vec4 α :=
  let pa : α := (r1 : α)
  let pb : α := (r2 : α)
  let pr : α := (r3 : α) / (RAND_MAX : α)
  ⟨pr * L.cos pb * L.cos pa, pr * L.sin pb, pr * L.cos pb * L.sin pa, 1⟩

/-- The loop of `initPartRenderer` that fills the mapped buffer: `n` iterations
from index `i` on. -/
def populate (env : Env α) : Nat → Nat → World α → World α
  | 0, _, g => g
  | n + 1, i, g =>
    let (r1, g) := rand env g
    let (r2, g) := rand env g
    let (r3, g) := rand env g
    populate env n (i + 1) (g.writeMapped i (initialParticle env.libm env.RAND_MAX r1 r2 r3))

/-- Function `initPartRenderer`; `none` is `exit(-1)`. -/
def initPartRenderer (env : Env α) (d : UserData α) (g : World α) :
    Option (UserData α × World α) :=
  let (prg, g) := loadShaders env [GL_VERTEX_SHADER, GL_GEOMETRY_SHADER, GL_FRAGMENT_SHADER]
    [partVertShader, partGeomShader, partFragShader] ["partPosNext"] g
  if prg = 0 then none
  else
    let d := { d with prg := Function.update d.prg PRG_PARTICLE prg }
    let vao0 := d.vao VAO_PARTICLE0
    let vao1 := d.vao VAO_PARTICLE1
    let vbo0 := d.vbo VBO_PARTICLE0
    let vbo1 := d.vbo VBO_PARTICLE1
    let xfb := d.xfb XFB_PARTICLE
    let g := glUseProgram prg g
    let (partPosLoc, g) := glGetAttribLocation env prg "partPos" g
    if partPosLoc < 0 then none
    else
      let g := glBindVertexArray vao0 g
      let g := glBindBuffer .GL_ARRAY_BUFFER vbo0 g
      let g := glBufferData .GL_ARRAY_BUFFER (d.popCount * 16) .null g
      let g := glMapBuffer .GL_ARRAY_BUFFER g
      let g := populate env d.popCount 0 g
      let g := glUnmapBuffer .GL_ARRAY_BUFFER g
      let g := glVertexAttribPointer partPosLoc g
      let g := glEnableVertexAttribArray partPosLoc g
      let g := glBindTransformFeedback xfb g
      let g := glBindBuffer .GL_TRANSFORM_FEEDBACK_BUFFER vbo1 g
      let g := glBufferData .GL_TRANSFORM_FEEDBACK_BUFFER (d.popCount * 16) .null g
      let g := glTransformFeedbackBufferBase xfb 0 vbo1 g
      let g := glBindVertexArray 0 g
      let g := glBindBuffer .GL_ARRAY_BUFFER 0 g
      let g := glBindVertexArray vao1 g
      let g := glBindBuffer .GL_ARRAY_BUFFER vbo1 g
      let g := glVertexAttribPointer partPosLoc g
      let g := glEnableVertexAttribArray partPosLoc g
      let g := glBindTransformFeedback xfb g
      let g := glBindBuffer .GL_TRANSFORM_FEEDBACK_BUFFER vbo0 g
      let g := glTransformFeedbackBufferBase xfb 0 vbo0 g
      let g := glBindVertexArray 0 g
      let g := glBindBuffer .GL_ARRAY_BUFFER 0 g
      let g := glUseProgram 0 g
      some (d, g)

/-- Function `init`; `none` is `exit(-1)`. The record `d` comes in
uninitialised and every field the program reads is assigned here. -/
def init (env : Env α) (d : UserData α) (g : World α) : Option (UserData α × World α) :=
  let d := { d with frame := 0 }
  let d := { d with popCount := 2 }
  let d := { d with autoRot := false }
  let d := { d with fov := 55 }
  let d := { d with eye := ⟨0, 0, 32 / 10, 1⟩ }
  let d := { d with proj := Mat4.diag 1 }
  let d := { d with model := Mat4.diag 1 }
  let d := { d with view := lookAt env.libm d.eye.xyz ⟨0, 0, 0⟩ ⟨0, 1, 0⟩ }
  if !env.glfwInit then none
  else
    match env.monitor with
    | none => none
    | some _ =>
      match env.videoMode with
      | none => none
      | some (width, height) =>
        let w := Int.tdiv width 2
        let h := Int.tdiv height 2
        match env.window with
        | none => none
        | some window =>
          let d := { d with wnd := window }
          if !env.glewInit then none
          else
            let (d, g) := onResize env w h d g
            let g := glEnable "GL_DEPTH_TEST" g
            let g := glEnable "GL_SCISSOR_TEST" g
            let g := glDepthFunc g
            let g := glClearColor g
            let g := glEnable "GL_DEBUG_OUTPUT" g
            let g := glDebugMessageCallback g
            let (vao, g) := glGenVertexArrays VAO_COUNT g
            let d := { d with vao := vao }
            let (vbo, g) := glGenBuffers VBO_COUNT g
            let d := { d with vbo := vbo }
            let (ebo, g) := glGenBuffers EBO_COUNT g
            let d := { d with ebo := ebo }
            let (xfb, g) := glGenTransformFeedbacks XFB_COUNT g
            let d := { d with xfb := xfb }
            (initCubeRenderer env d g).bind fun (d, g) =>
            (initPartRenderer env d g).bind fun (d, g) =>
            let (t, g) := glfwGetTime env g
            some ({ d with t := t }, g)

/-- Function `drawCube`; `none` is `exit(-1)`. -/
def drawCube (env : Env α) (d : UserData α) (g : World α) : Option (World α) :=
  let prg := d.prg PRG_CUBE
  let vao := d.vao VAO_CUBE
  let g := glUseProgram prg g
  let (mvpMatLoc, g) := glGetUniformLocation env prg "mvpMat" g
  let (vertPosLoc, g) := glGetAttribLocation env prg "vertPos" g
  if mvpMatLoc < 0 ∨ vertPosLoc < 0 then none
  else
    let mvpMat := (d.proj.mul d.view).mul d.model
    let g := glUniformMatrix4fv mvpMatLoc mvpMat g
    let g := glBindVertexArray vao g
    let g := glDrawElements (cubePipeline vertPosLoc mvpMat) .GL_LINES 24 g
    let g := glBindVertexArray 0 g
    let g := glUseProgram 0 g
    some g

/-- Function `drawPart`; `none` is `exit(-1)`. -/
def drawPart (env : Env α) (d : UserData α) (g : World α) : Option (World α) :=
  let prg := d.prg PRG_PARTICLE
  let vao0 := d.vao VAO_PARTICLE0
  let vao1 := d.vao VAO_PARTICLE1
  let vbo0 := d.vbo VBO_PARTICLE0
  let vbo1 := d.vbo VBO_PARTICLE1
  let xfb := d.xfb XFB_PARTICLE
  let vao := if d.frame &&& 0x1 ≠ 0 then vao1 else vao0
  let vbo := if d.frame &&& 0x1 ≠ 0 then vbo0 else vbo1
  let g := glUseProgram prg g
  let (mvpMatLoc, g) := glGetUniformLocation env prg "mvpMat" g
  let (partPosLoc, g) := glGetAttribLocation env prg "partPos" g
  if mvpMatLoc < 0 ∨ partPosLoc < 0 then none
  else
    let mvpMat := (d.proj.mul d.view).mul d.model
    let g := glUniformMatrix4fv mvpMatLoc mvpMat g
    let g := glBindBuffer .GL_TRANSFORM_FEEDBACK_BUFFER vbo g
    let g := glBufferData .GL_TRANSFORM_FEEDBACK_BUFFER (d.popCount * 16) .null g
    let g := glBindVertexArray vao g
    let g := glTransformFeedbackBufferBase xfb 0 vbo g
    let g := glBeginTransformFeedback .GL_POINTS g
    let g := glDrawArrays (partPipeline partPosLoc mvpMat) .GL_POINTS 0 d.popCount g
    let g := glEndTransformFeedback g
    let g := glBindVertexArray 0 g
    let g := glBindBuffer .GL_ARRAY_BUFFER 0 g
    let g := glBindBuffer .GL_TRANSFORM_FEEDBACK_BUFFER 0 g
    let g := glUseProgram 0 g
    some g

/-- Function `display`; `none` is `exit(-1)`. -/
def display (env : Env α) (d : UserData α) (g : World α) : Option (UserData α × World α) :=
  let (t, g) := glfwGetTime env g
  let dt := t - d.t
  let d := { d with t := t }
  let g := glClear g
  let d :=
    if d.autoRot then
      let rot := rotate env.libm (Mat4.diag 1) (radians env.libm (5 * dt)) ⟨0, 1, 0⟩
      let d := { d with eye := rot.mulVec d.eye }
      { d with view := lookAt env.libm d.eye.xyz ⟨0, 0, 0⟩ ⟨0, 1, 0⟩ }
    else d
  (drawCube env d g).bind fun g =>
  (drawPart env d g).bind fun g =>
  some (d, g)

/-- Function `finalize`. -/
def finalize (d : UserData α) (g : World α) : World α :=
  let g := glUseProgram 0 g
  let g := (List.range PRG_COUNT).foldl (fun g i => glDeleteProgram (d.prg i) g) g
  let g := glDeleteVertexArrays VAO_COUNT g
  let g := glDeleteBuffers VBO_COUNT g
  let g := glDeleteBuffers EBO_COUNT g
  let g := glDeleteTransformFeedbacks XFB_COUNT g
  g

/-- The callback GLFW runs for an event. -/
def dispatch (env : Env α) (e : Event α) (s : UserData α × World α) : UserData α × World α :=
  match e with
  | .resize w h => onResize env w h s.1 s.2
  | .key k a => onKey k a s.1 s.2
  | .scroll _ dy => onScroll env dy s.1 s.2
  | .focus => s
  | .mouseButton => s
  | .cursorPos => s
  | .cursorEnter => s

/-- Call `glfwPollEvents()`: the pending events run their callbacks in order. -/
def glfwPollEvents (env : Env α) (d : UserData α) (g : World α) : UserData α × World α :=
  (env.events g.polls).foldl (fun s e => dispatch env e s) (d, { g with polls := g.polls + 1 })

/-- Body of the loop of `main`: `display`, `glfwSwapBuffers`, the disabled
increment of `frame`, `glfwPollEvents`. -/
def loopBody (env : Env α) (s : UserData α × World α) : Option (UserData α × World α) :=
  (display env s.1 s.2).bind fun (d, g) =>
  some (glfwPollEvents env d g)

/-- The loop body run `n` times in a row. -/
def cycles (env : Env α) : Nat → UserData α × World α → Option (UserData α × World α)
  | 0, s => some s
  | n + 1, s => (cycles env n s).bind (loopBody env)

/-- The `do ... while` loop of `main` with at most `fuel + 1` iterations:
`none` is `exit(-1)` or fuel running out. -/
def mainLoop (env : Env α) : Nat → UserData α × World α → Option (UserData α × World α)
  | 0, s => (loopBody env s).bind fun s => if s.2.shouldClose then some s else none
  | fuel + 1, s =>
    (loopBody env s).bind fun s => if s.2.shouldClose then some s else mainLoop env fuel s

/-- Function `main`: the exit status and the final context. -/
def main (env : Env α) (fuel : Nat) (d : UserData α) (g : World α) : Option (Int × World α) :=
  (init env d g).bind fun s =>
  (mainLoop env fuel s).bind fun (d, g) =>
  some (0, finalize d g)

end Program

/-! ## Runs of the program -/

/-- One step of a run after `init`: a call of `display` or one callback. -/
inductive Step (α : Type) where
  | display
  | event (e : Event α)

section Runs

variable {α : Type} [LinearOrderedField α]

/-- Effect of one step; `none` is `exit(-1)`. -/
def step (env : Env α) (st : Step α) (s : UserData α × World α) :
    Option (UserData α × World α) :=
  match st with
  | .display => display env s.1 s.2
  | .event e => some (dispatch env e s)

/-- Effect of a sequence of steps, in order. -/
def run (env : Env α) : List (Step α) → UserData α × World α → Option (UserData α × World α)
  | [], s => some s
  | st :: rest, s => (step env st s).bind (run env rest)

/-- The draw call issued by `drawPart`: the last draw on record when it returns. -/
def partDraw (env : Env α) (d : UserData α) (g : World α) : Option (Draw α) :=
  (drawPart env d g).bind fun g => g.draws.getLast?

end Runs

/-- The context `g2` differs from `g1` at most in the log of calls and in the
name counter. -/
def World.logOnly {α : Type} (g1 g2 : World α) : Prop :=
  g2 = { g1 with trace := g2.trace, names := g2.names }

/-- The part of the state that no step after `init` assigns: the frame
counter, the population size, the field of view, the model matrix, the object
names, the attribute wiring of the vertex arrays and the transform feedback
object bound. -/
def fixed {α : Type} (s : UserData α × World α) :=
  (s.1.frame, s.1.popCount, s.1.fov, s.1.model, s.1.prg, s.1.vao, s.1.vbo, s.1.xfb,
    s.2.attribBuffer, s.2.attribEnabled, s.2.feedbackObject)

/-- The buffers captured into by the draws on record, oldest first. -/
def World.captures {α : Type} (g : World α) : List Nat := g.draws.filterMap fun dr => dr.feedback

/-- Whether a step is anything but a resize event. -/
def Step.keepsSize {α : Type} : Step α → Bool
  | .event (.resize _ _) => false
  | _ => true

/-! ## Sample inputs -/

section Samples

variable {α : Type} [LinearOrderedField α]

/-- A stand-in for the C library on any field: truncated series, and the
identity for the square root. -/
def sampleLibm : Libm α :=
  { pi := 22 / 7
    cos := fun x => 1 - x * x / 2
    sin := fun x => x
    tan := fun x => x
    sqrt := fun x => x }

/-- An environment in which every call succeeds: a 1600 by 1200 video mode,
locations 0, and one scroll up, one key release of R and one resize in the
first poll. -/
def sampleEnv : Env α :=
  { libm := sampleLibm
    RAND_MAX := 32767
    rand := fun k => (k * 7919 + 13) % 32768
    time := fun k => (k : α) / 60
    events := fun k => if k = 0 then [.scroll 0 1, .key GLFW_KEY_R GLFW_RELEASE, .resize 800 600]
      else []
    glfwInit := true
    monitor := some 1
    videoMode := some (1600, 1200)
    window := some 1
    glewInit := true
    compileStatus := fun _ _ => true
    linkStatus := fun _ => true
    attribLocation := fun _ _ => 0
    uniformLocation := fun _ _ => 0 }

/-- An uninitialised `UserData`. -/
def sampleData : UserData α :=
  { wnd := 0, t := 0, proj := fun _ _ => 0, view := fun _ _ => 0, model := fun _ _ => 0,
    fov := 0, eye := ⟨0, 0, 0, 0⟩, autoRot := false, prg := fun _ => 0, vao := fun _ => 0,
    vbo := fun _ => 0, ebo := fun _ => 0, xfb := fun _ => 0, popCount := 0, frame := 0 }

/-- A context in which nothing has happened yet. -/
def freshWorld : World α :=
  { trace := [], names := 0, program := 0, vertexArray := 0, arrayBuffer := 0,
    feedbackBuffer := 0, feedbackObject := 0, feedbackActive := false,
    elementBuffer := fun _ => 0, attribBuffer := fun _ _ => 0,
    attribEnabled := fun _ _ => false, feedbackBase := fun _ _ => 0, store := fun _ => [],
    elements := fun _ => [], mapped := 0, uniform := fun _ _ _ _ => 0, draws := [],
    rands := 0, clocks := 0, polls := 0, shouldClose := false }

end Samples

/-- An environment with its C library replaced. -/
def Env.withLibm {α : Type} (env : Env α) (L : Libm α) : Env α := { env with libm := L }

/-- The state `init` leaves in an environment, from an uninitialised record
and a fresh context. -/
def startOf {α : Type} [LinearOrderedField α] (env : Env α) : UserData α × World α :=
  (init env sampleData freshWorld).getD (sampleData, freshWorld)

/-- The state after `init` and a sequence of steps. -/
def runOf {α : Type} [LinearOrderedField α] (env : Env α) (steps : List (Step α)) :
    UserData α × World α :=
  (run env steps (startOf env)).getD (startOf env)

/-- The state after `init` and `n` iterations of the loop. -/
def afterOf {α : Type} [LinearOrderedField α] (env : Env α) (n : Nat) : UserData α × World α :=
  (cycles env n (startOf env)).getD (startOf env)

/-- A sequence of steps: a frame, a scroll up, a release of R, a resize and two
more frames. -/
def sampleSteps {α : Type} [LinearOrderedField α] : List (Step α) :=
  [.display, .event (.scroll 0 1), .event (.key GLFW_KEY_R GLFW_RELEASE),
    .event (.resize 800 600), .display, .display]

/-! ## Theorems -/

/-! ### The context under the program's functions -/

section Lemmas

variable {α : Type}

theorem World.logOnly_refl (g : World α) : g.logOnly g := rfl

theorem World.logOnly_trans {g1 g2 g3 : World α} (h12 : g1.logOnly g2) (h23 : g2.logOnly g3) :
    g1.logOnly g3 := by
  unfold World.logOnly at *
  rw [h23, h12]

theorem compileStages_logOnly (env : Env α) (po : Nat) (l : List (GLenum × String))
    (sos : List Nat) (g : World α) : g.logOnly (compileStages env po l sos g).2 := by
  induction l generalizing sos g with
  | nil => exact World.logOnly_refl g
  | cons a rest ih =>
    obtain ⟨ty, text⟩ := a
    simp only [compileStages]
    split
    · rfl
    · exact World.logOnly_trans (by rfl) (ih _ _)

theorem detach_logOnly (po : Nat) (sos : List Nat) (g : World α) :
    g.logOnly (sos.foldl (fun g so => glDeleteShader so (glDetachShader po so g)) g) := by
  induction sos generalizing g with
  | nil => exact World.logOnly_refl g
  | cons a rest ih =>
    simp only [List.foldl_cons]
    exact World.logOnly_trans (by rfl) (ih _)

theorem loadShaders_logOnly (env : Env α) (type : List GLenum) (shader xfb : List String)
    (g : World α) : g.logOnly (loadShaders env type shader xfb g).2 := by
  unfold loadShaders
  split
  · rfl
  split
  · rfl
  simp only
  have h1 := compileStages_logOnly env (glCreateProgram g).1 (type.zip shader) []
    (glCreateProgram g).2
  generalize compileStages env (glCreateProgram g).1 (type.zip shader) [] (glCreateProgram g).2
    = r at h1
  obtain ⟨o, g1⟩ := r
  have h0 : g.logOnly g1 := World.logOnly_trans (by rfl) h1
  cases o with
  | none => exact h0
  | some sos =>
    simp only
    split
    · split
      · exact World.logOnly_trans h0 (by rfl)
      · exact World.logOnly_trans h0 (by rfl)
    · split
      · exact World.logOnly_trans h0 (World.logOnly_trans (by rfl) (detach_logOnly _ _ _))
      · exact World.logOnly_trans h0 (World.logOnly_trans (by rfl) (detach_logOnly _ _ _))

variable [LinearOrderedField α]

theorem populate_eq (env : Env α) (n i : Nat) (g : World α) :
    populate env n i g
      = { g with store := (populate env n i g).store, rands := g.rands + 3 * n } := by
  induction n generalizing i g with
  | zero => simp [populate]
  | succ n ih =>
    simp only [populate, rand]
    rw [ih]
    simp only [World.writeMapped]
    congr 1
    omega

@[simp]
theorem populate_vertexArray (env : Env α) (n i : Nat) (g : World α) :
    (populate env n i g).vertexArray = g.vertexArray := by rw [populate_eq]

@[simp]
theorem populate_arrayBuffer (env : Env α) (n i : Nat) (g : World α) :
    (populate env n i g).arrayBuffer = g.arrayBuffer := by rw [populate_eq]

@[simp]
theorem populate_attribBuffer (env : Env α) (n i : Nat) (g : World α) :
    (populate env n i g).attribBuffer = g.attribBuffer := by rw [populate_eq]

@[simp]
theorem populate_attribEnabled (env : Env α) (n i : Nat) (g : World α) :
    (populate env n i g).attribEnabled = g.attribEnabled := by rw [populate_eq]

@[simp]
theorem populate_feedbackObject (env : Env α) (n i : Nat) (g : World α) :
    (populate env n i g).feedbackObject = g.feedbackObject := by rw [populate_eq]

@[simp]
theorem populate_feedbackActive (env : Env α) (n i : Nat) (g : World α) :
    (populate env n i g).feedbackActive = g.feedbackActive := by rw [populate_eq]

@[simp]
theorem populate_clocks (env : Env α) (n i : Nat) (g : World α) :
    (populate env n i g).clocks = g.clocks := by rw [populate_eq]

@[simp]
theorem populate_polls (env : Env α) (n i : Nat) (g : World α) :
    (populate env n i g).polls = g.polls := by rw [populate_eq]

@[simp]
theorem populate_draws (env : Env α) (n i : Nat) (g : World α) :
    (populate env n i g).draws = g.draws := by rw [populate_eq]

/-- Two iterations of the loop on a mapped store of two undefined records. -/
theorem populate_two (env : Env α) (g : World α) (b : Nat)
    (hs : g.store g.mapped = [none, none]) (hb : b = g.mapped) :
    (populate env 2 0 g).store b
      = [some (initialParticle env.libm env.RAND_MAX (env.rand g.rands) (env.rand (g.rands + 1))
            (env.rand (g.rands + 2))),
         some (initialParticle env.libm env.RAND_MAX (env.rand (g.rands + 3))
            (env.rand (g.rands + 4)) (env.rand (g.rands + 5)))] := by
  subst hb
  simp [populate, rand, World.writeMapped, hs]

theorem populate_store_other (env : Env α) (n i : Nat) (g : World α) (b : Nat)
    (hb : b ≠ g.mapped) : (populate env n i g).store b = g.store b := by
  induction n generalizing i g with
  | zero => rfl
  | succ n ih =>
    simp only [populate, rand]
    rw [ih]
    · simp [World.writeMapped, Function.update_noteq hb]
    · exact hb

end Lemmas

section Functions

variable {α : Type} [LinearOrderedField α]

theorem initPartRenderer_spec (env : Env α) (d d1 : UserData α) (g g1 : World α)
    (h : initPartRenderer env d g = some (d1, g1)) :
    ∃ p, d1 = { d with prg := Function.update d.prg PRG_PARTICLE p } ∧ p ≠ 0
      ∧ 0 ≤ env.attribLocation p "partPos"
      ∧ g1.feedbackObject = d.xfb XFB_PARTICLE
      ∧ g1.clocks = g.clocks ∧ g1.polls = g.polls ∧ g1.draws = g.draws
      ∧ g1.attribBuffer (d.vao VAO_PARTICLE1) (env.attribLocation p "partPos")
          = d.vbo VBO_PARTICLE1
      ∧ g1.attribEnabled (d.vao VAO_PARTICLE1) (env.attribLocation p "partPos") = true
      ∧ (d.vao VAO_PARTICLE0 ≠ d.vao VAO_PARTICLE1 →
          g1.attribBuffer (d.vao VAO_PARTICLE0) (env.attribLocation p "partPos")
            = d.vbo VBO_PARTICLE0
          ∧ g1.attribEnabled (d.vao VAO_PARTICLE0) (env.attribLocation p "partPos") = true)
      ∧ (d.popCount = 2 → d.vbo VBO_PARTICLE0 ≠ d.vbo VBO_PARTICLE1 →
          g1.store (d.vbo VBO_PARTICLE0)
            = [some (initialParticle env.libm env.RAND_MAX (env.rand g.rands)
                  (env.rand (g.rands + 1)) (env.rand (g.rands + 2))),
               some (initialParticle env.libm env.RAND_MAX (env.rand (g.rands + 3))
                  (env.rand (g.rands + 4)) (env.rand (g.rands + 5)))]) := by
  unfold initPartRenderer at h
  have hl := loadShaders_logOnly env [GL_VERTEX_SHADER, GL_GEOMETRY_SHADER, GL_FRAGMENT_SHADER]
    [partVertShader, partGeomShader, partFragShader] ["partPosNext"] g
  generalize loadShaders env [GL_VERTEX_SHADER, GL_GEOMETRY_SHADER, GL_FRAGMENT_SHADER]
    [partVertShader, partGeomShader, partFragShader] ["partPosNext"] g = r at h hl
  obtain ⟨p, g0⟩ := r
  simp only at h hl
  have hr : g0.rands = g.rands := by rw [hl]
  have hc : g0.clocks = g.clocks := by rw [hl]
  have hpo : g0.polls = g.polls := by rw [hl]
  have hdr : g0.draws = g.draws := by rw [hl]
  split at h
  · exact absurd h (by simp)
  · rename_i hp
    simp only [glGetAttribLocation] at h
    split at h
    · exact absurd h (by simp)
    · rename_i hloc
      simp only [Option.some.injEq, Prod.mk.injEq] at h
      obtain ⟨hd, hg⟩ := h
      refine ⟨p, hd.symm, hp, not_lt.mp hloc, ?_, ?_, ?_, ?_, ?_, ?_, ?_, ?_⟩
      · rw [← hg]; rfl
      · rw [← hg, ← hc]
        simp [glUseProgram, glBindBuffer, glBindVertexArray, glTransformFeedbackBufferBase,
          glBindTransformFeedback, glEnableVertexAttribArray, glVertexAttribPointer, World.log,
          glBufferData, glUnmapBuffer, glMapBuffer, World.binding]
      · rw [← hg, ← hpo]
        simp [glUseProgram, glBindBuffer, glBindVertexArray, glTransformFeedbackBufferBase,
          glBindTransformFeedback, glEnableVertexAttribArray, glVertexAttribPointer, World.log,
          glBufferData, glUnmapBuffer, glMapBuffer, World.binding]
      · rw [← hg, ← hdr]
        simp [glUseProgram, glBindBuffer, glBindVertexArray, glTransformFeedbackBufferBase,
          glBindTransformFeedback, glEnableVertexAttribArray, glVertexAttribPointer, World.log,
          glBufferData, glUnmapBuffer, glMapBuffer, World.binding]
      · rw [← hg]
        simp [glUseProgram, glBindBuffer, glBindVertexArray, glTransformFeedbackBufferBase,
          glBindTransformFeedback, glEnableVertexAttribArray, glVertexAttribPointer, World.log]
      · rw [← hg]
        simp [glUseProgram, glBindBuffer, glBindVertexArray, glTransformFeedbackBufferBase,
          glBindTransformFeedback, glEnableVertexAttribArray, glVertexAttribPointer, World.log]
      · intro hne
        rw [← hg]
        constructor
        · simp [glUseProgram, glBindBuffer, glBindVertexArray, glTransformFeedbackBufferBase,
            glBindTransformFeedback, glEnableVertexAttribArray, glVertexAttribPointer, World.log,
            glBufferData, glUnmapBuffer, glMapBuffer, World.binding, Function.update_noteq hne]
        · simp [glUseProgram, glBindBuffer, glBindVertexArray, glTransformFeedbackBufferBase,
            glBindTransformFeedback, glEnableVertexAttribArray, glVertexAttribPointer, World.log,
            glBufferData, glUnmapBuffer, glMapBuffer, World.binding, Function.update_noteq hne]
      · intro hpop hne
        rw [← hg, ← hr]
        simp only [glUseProgram, glBindBuffer, glBindVertexArray, glTransformFeedbackBufferBase,
            glBindTransformFeedback, glEnableVertexAttribArray, glVertexAttribPointer, World.log,
            glBufferData, glUnmapBuffer, glMapBuffer, World.binding, hpop]
        rw [Function.update_noteq hne]
        rw [populate_two]
        · simp
        · rfl

theorem initCubeRenderer_spec (env : Env α) (d d1 : UserData α) (g g1 : World α)
    (h : initCubeRenderer env d g = some (d1, g1)) :
    ∃ p, d1 = { d with prg := Function.update d.prg PRG_CUBE p }
      ∧ g1.rands = g.rands ∧ g1.clocks = g.clocks ∧ g1.polls = g.polls
      ∧ g1.draws = g.draws := by
  unfold initCubeRenderer at h
  have hl := loadShaders_logOnly env [GL_VERTEX_SHADER, GL_FRAGMENT_SHADER]
    [cubeVertShader, cubeFragShader] [] g
  generalize loadShaders env [GL_VERTEX_SHADER, GL_FRAGMENT_SHADER]
    [cubeVertShader, cubeFragShader] [] g = r at h hl
  obtain ⟨p, g0⟩ := r
  simp only at h hl
  have hr : g0.rands = g.rands := by rw [hl]
  have hc : g0.clocks = g.clocks := by rw [hl]
  have hpo : g0.polls = g.polls := by rw [hl]
  have hdr : g0.draws = g.draws := by rw [hl]
  split at h
  · exact absurd h (by simp)
  · simp only [glGetAttribLocation] at h
    split at h
    · exact absurd h (by simp)
    · simp only [Option.some.injEq, Prod.mk.injEq] at h
      obtain ⟨hd, hg⟩ := h
      refine ⟨p, hd.symm, ?_, ?_, ?_, ?_⟩
      · rw [← hg, ← hr]
        simp [glUseProgram, glBindBuffer, glBindVertexArray, glEnableVertexAttribArray,
          glVertexAttribPointer, World.log, glBufferData, World.binding]
      · rw [← hg, ← hc]
        simp [glUseProgram, glBindBuffer, glBindVertexArray, glEnableVertexAttribArray,
          glVertexAttribPointer, World.log, glBufferData, World.binding]
      · rw [← hg, ← hpo]
        simp [glUseProgram, glBindBuffer, glBindVertexArray, glEnableVertexAttribArray,
          glVertexAttribPointer, World.log, glBufferData, World.binding]
      · rw [← hg, ← hdr]
        simp [glUseProgram, glBindBuffer, glBindVertexArray, glEnableVertexAttribArray,
          glVertexAttribPointer, World.log, glBufferData, World.binding]

/-- What `init` leaves behind. -/
theorem init_spec (env : Env α) (d d1 : UserData α) (g g1 : World α)
    (h : init env d g = some (d1, g1)) :
    d1.frame = 0 ∧ d1.popCount = 2 ∧ d1.autoRot = false ∧ d1.fov = 55
      ∧ d1.eye = ⟨0, 0, 32 / 10, 1⟩ ∧ d1.model = Mat4.diag 1
      ∧ d1.view = lookAt env.libm d1.eye.xyz ⟨0, 0, 0⟩ ⟨0, 1, 0⟩
      ∧ d1.vao VAO_PARTICLE0 ≠ d1.vao VAO_PARTICLE1
      ∧ d1.vbo VBO_PARTICLE0 ≠ d1.vbo VBO_PARTICLE1
      ∧ 0 ≤ env.attribLocation (d1.prg PRG_PARTICLE) "partPos"
      ∧ g1.feedbackObject = d1.xfb XFB_PARTICLE
      ∧ g1.polls = g.polls ∧ g1.draws = g.draws
      ∧ g1.attribBuffer (d1.vao VAO_PARTICLE0)
          (env.attribLocation (d1.prg PRG_PARTICLE) "partPos") = d1.vbo VBO_PARTICLE0
      ∧ g1.attribBuffer (d1.vao VAO_PARTICLE1)
          (env.attribLocation (d1.prg PRG_PARTICLE) "partPos") = d1.vbo VBO_PARTICLE1
      ∧ g1.attribEnabled (d1.vao VAO_PARTICLE0)
          (env.attribLocation (d1.prg PRG_PARTICLE) "partPos") = true
      ∧ g1.attribEnabled (d1.vao VAO_PARTICLE1)
          (env.attribLocation (d1.prg PRG_PARTICLE) "partPos") = true
      ∧ g1.store (d1.vbo VBO_PARTICLE0)
          = [some (initialParticle env.libm env.RAND_MAX (env.rand g.rands)
                (env.rand (g.rands + 1)) (env.rand (g.rands + 2))),
             some (initialParticle env.libm env.RAND_MAX (env.rand (g.rands + 3))
                (env.rand (g.rands + 4)) (env.rand (g.rands + 5)))] := by
  unfold init at h
  simp only at h
  split at h
  · exact absurd h (by simp)
  split at h
  · exact absurd h (by simp)
  split at h
  · exact absurd h (by simp)
  rename_i width height hvm
  split at h
  · exact absurd h (by simp)
  rename_i window hwin
  split at h
  · exact absurd h (by simp)
  simp only [Option.bind_eq_some] at h
  obtain ⟨⟨d2, g2⟩, hcube, ⟨d3, g3⟩, hpart, hfin⟩ := h
  obtain ⟨p1, hd2, hr2, hc2, hp2, hdr2⟩ := initCubeRenderer_spec env _ _ _ _ hcube
  obtain ⟨p2, hd3, hp2ne, hloc, hfo, hc3, hpo3, hdr3, hb1, he1, h0, hst⟩ :=
    initPartRenderer_spec env _ _ _ _ hpart
  simp only [glfwGetTime, Option.some.injEq, Prod.mk.injEq] at hfin
  obtain ⟨hd1, hg1⟩ := hfin
  subst hd1 hg1
  subst hd3
  subst hd2
  simp only [onResize, glViewport, glScissor, glEnable, glDepthFunc, glClearColor,
    glDebugMessageCallback, glGenVertexArrays, glGenBuffers, glGenTransformFeedbacks, World.log,
    World.fresh, Function.update_same, ne_eq, VAO_COUNT, VBO_COUNT, VAO_PARTICLE0,
    VAO_PARTICLE1, VBO_PARTICLE0, VBO_PARTICLE1, XFB_COUNT, XFB_PARTICLE,
    show (2 : ℕ) < 4 from by decide, show (3 : ℕ) < 4 from by decide,
    show (0 : ℕ) < 1 from by decide, if_true] at *
  have hvv : ¬ (g.names + 1 + 2 = g.names + 1 + 3) := by omega
  have hbb : ¬ (g.names + 4 + 1 + 2 = g.names + 4 + 1 + 3) := by omega
  obtain ⟨h0a, h0b⟩ := h0 hvv
  refine ⟨trivial, trivial, trivial, trivial, trivial, trivial, trivial, hvv, hbb, hloc, hfo,
    ?_, ?_, h0a, hb1, h0b, he1, ?_⟩
  · rw [hpo3, hp2]
  · rw [hdr3, hdr2]
  · rw [hst trivial hbb, hr2]

/-- What `drawCube` changes: the log, the uniform, the bindings it resets,
and one draw on record. -/
theorem drawCube_spec (env : Env α) (d : UserData α) (g g1 : World α)
    (h : drawCube env d g = some g1) :
    g1.attribBuffer = g.attribBuffer ∧ g1.attribEnabled = g.attribEnabled
      ∧ g1.store = g.store ∧ g1.feedbackObject = g.feedbackObject
      ∧ g1.polls = g.polls ∧ g1.rands = g.rands ∧ g1.shouldClose = g.shouldClose
      ∧ g1.clocks = g.clocks
      ∧ ∃ dr, g1.draws = g.draws ++ [dr] ∧ dr.feedback = none
          ∧ dr.program = d.prg PRG_CUBE ∧ dr.vertexArray = d.vao VAO_CUBE
          ∧ g1.uniform (d.prg PRG_CUBE) (env.uniformLocation (d.prg PRG_CUBE) "mvpMat")
              = (d.proj.mul d.view).mul d.model := by
  unfold drawCube at h
  simp only [glGetUniformLocation, glGetAttribLocation] at h
  split at h
  · exact absurd h (by simp)
  · simp only [Option.some.injEq] at h
    subst h
    refine ⟨rfl, rfl, rfl, rfl, rfl, rfl, rfl, rfl, _, rfl, rfl, rfl, rfl, ?_⟩
    simp [glUseProgram, glBindVertexArray, glDrawElements, glUniformMatrix4fv, World.log]

/-- What `drawPart` changes, and the draw it puts on record. -/
theorem drawPart_spec (env : Env α) (d : UserData α) (g g1 : World α)
    (h : drawPart env d g = some g1) :
    g1.attribBuffer = g.attribBuffer ∧ g1.attribEnabled = g.attribEnabled
      ∧ g1.feedbackObject = g.feedbackObject
      ∧ g1.polls = g.polls ∧ g1.rands = g.rands ∧ g1.shouldClose = g.shouldClose
      ∧ g1.clocks = g.clocks
      ∧ 0 ≤ env.uniformLocation (d.prg PRG_PARTICLE) "mvpMat"
      ∧ 0 ≤ env.attribLocation (d.prg PRG_PARTICLE) "partPos"
      ∧ g1.uniform = Function.update g.uniform (d.prg PRG_PARTICLE)
          (Function.update (g.uniform (d.prg PRG_PARTICLE))
            (env.uniformLocation (d.prg PRG_PARTICLE) "mvpMat") ((d.proj.mul d.view).mul d.model))
      ∧ ∃ dr, g1.draws = g.draws ++ [dr]
          ∧ dr.program = d.prg PRG_PARTICLE
          ∧ dr.vertexArray
              = (if d.frame &&& 0x1 ≠ 0 then d.vao VAO_PARTICLE1 else d.vao VAO_PARTICLE0)
          ∧ dr.source = g.attribBuffer dr.vertexArray
              (env.attribLocation (d.prg PRG_PARTICLE) "partPos")
          ∧ (g.feedbackObject = d.xfb XFB_PARTICLE → dr.feedback
              = some (if d.frame &&& 0x1 ≠ 0 then d.vbo VBO_PARTICLE0 else d.vbo VBO_PARTICLE1))
          ∧ (∀ t, g.feedbackObject = d.xfb XFB_PARTICLE → dr.feedback = some t →
              dr.source ≠ t →
              g.attribEnabled dr.vertexArray
                (env.attribLocation (d.prg PRG_PARTICLE) "partPos") = true →
              dr.vertices = (g.store dr.source).take d.popCount
              ∧ g1.store = Function.update g.store t
                  (capture (List.replicate d.popCount none)
                    ((g.store dr.source).take d.popCount))) := by
  unfold drawPart at h
  simp only [glGetUniformLocation, glGetAttribLocation] at h
  split at h
  · exact absurd h (by simp)
  · rename_i hlocs
    rw [not_or, not_lt, not_lt] at hlocs
    simp only [Option.some.injEq] at h
    subst h
    simp only [glUseProgram, glBindVertexArray, glDrawArrays, glUniformMatrix4fv, World.log,
        glBindBuffer, glBufferData, glTransformFeedbackBufferBase, glBeginTransformFeedback,
        glEndTransformFeedback, World.fetch, World.binding, partPipeline,
        Function.update_same, if_true]
    refine ⟨trivial, trivial, trivial, trivial, trivial, trivial, trivial, hlocs.1, hlocs.2,
      trivial, _, rfl, rfl, rfl, rfl, ?_, ?_⟩
    · intro hfo
      simp only [hfo, Function.update_same]
    · intro t hfo ht hne hen
      simp only [hfo, Function.update_same, Option.some.injEq] at ht hne hen ⊢
      subst ht
      rw [hfo, Function.update_same, Function.update_same]
      have hid : (fun p : Vec4 α =>
          (partGeomMain (partVertMain ((d.proj.mul d.view).mul d.model) p)).1) = id := rfl
      simp only [hen, if_true, Function.update_noteq hne, List.drop_zero, Nat.mul_div_cancel _
        (show 0 < 16 from by decide), Function.update_same, Function.update_idem, hid,
        Option.map_id, List.map_id, true_and]

end Functions

section Steps
variable {α : Type} [LinearOrderedField α]

theorem dispatch_spec (env : Env α) (e : Event α) (s : UserData α × World α) :
    fixed (dispatch env e s) = fixed s ∧ (dispatch env e s).2.draws = s.2.draws
      ∧ (dispatch env e s).2.store = s.2.store
      ∧ (dispatch env e s).2.polls = s.2.polls
      ∧ (s.1.view = lookAt env.libm s.1.eye.xyz ⟨0, 0, 0⟩ ⟨0, 1, 0⟩ →
          (dispatch env e s).1.view
            = lookAt env.libm (dispatch env e s).1.eye.xyz ⟨0, 0, 0⟩ ⟨0, 1, 0⟩) := by
  cases e with
  | resize w h => exact ⟨rfl, rfl, rfl, rfl, fun h => h⟩
  | focus => exact ⟨rfl, rfl, rfl, rfl, fun h => h⟩
  | key k a =>
    simp only [dispatch, onKey]
    split_ifs <;>
      (refine ⟨?_, ?_, ?_, ?_, ?_⟩ <;> first | rfl | trivial | exact fun h => h)
  | mouseButton => exact ⟨rfl, rfl, rfl, rfl, fun h => h⟩
  | cursorPos => exact ⟨rfl, rfl, rfl, rfl, fun h => h⟩
  | cursorEnter => exact ⟨rfl, rfl, rfl, rfl, fun h => h⟩
  | scroll dx dy =>
    simp only [dispatch, onScroll]
    split_ifs <;>
      (refine ⟨?_, ?_, ?_, ?_, ?_⟩ <;>
        first | rfl | trivial | exact fun _ => trivial)

theorem glfwPollEvents_spec (env : Env α) (d : UserData α) (g : World α) :
    fixed (glfwPollEvents env d g) = fixed (d, g)
      ∧ (glfwPollEvents env d g).2.draws = g.draws
      ∧ (glfwPollEvents env d g).2.store = g.store
      ∧ (glfwPollEvents env d g).2.polls = g.polls + 1
      ∧ (d.view = lookAt env.libm d.eye.xyz ⟨0, 0, 0⟩ ⟨0, 1, 0⟩ →
          (glfwPollEvents env d g).1.view
            = lookAt env.libm (glfwPollEvents env d g).1.eye.xyz ⟨0, 0, 0⟩ ⟨0, 1, 0⟩) := by
  unfold glfwPollEvents
  generalize env.events g.polls = l
  have key : ∀ (l : List (Event α)) (s : UserData α × World α),
      fixed (l.foldl (fun s e => dispatch env e s) s) = fixed s
      ∧ (l.foldl (fun s e => dispatch env e s) s).2.draws = s.2.draws
      ∧ (l.foldl (fun s e => dispatch env e s) s).2.store = s.2.store
      ∧ (l.foldl (fun s e => dispatch env e s) s).2.polls = s.2.polls
      ∧ (s.1.view = lookAt env.libm s.1.eye.xyz ⟨0, 0, 0⟩ ⟨0, 1, 0⟩ →
          (l.foldl (fun s e => dispatch env e s) s).1.view
            = lookAt env.libm (l.foldl (fun s e => dispatch env e s) s).1.eye.xyz
                ⟨0, 0, 0⟩ ⟨0, 1, 0⟩) := by
    intro l
    induction l with
    | nil => intro s; exact ⟨rfl, rfl, rfl, rfl, fun h => h⟩
    | cons e rest ih =>
      intro s
      simp only [List.foldl_cons]
      obtain ⟨h1, h2, h3, h4, h5⟩ := ih (dispatch env e s)
      obtain ⟨k1, k2, k3, k4, k5⟩ := dispatch_spec env e s
      exact ⟨h1.trans k1, h2.trans k2, h3.trans k3, h4.trans k4, fun h => h5 (k5 h)⟩
  obtain ⟨h1, h2, h3, h4, h5⟩ := key l (d, { g with polls := g.polls + 1 })
  exact ⟨h1, h2, h3, h4, h5⟩

/-- What `display` does to the record and the context. -/
theorem display_spec (env : Env α) (d d1 : UserData α) (g g1 : World α)
    (h : display env d g = some (d1, g1)) :
    fixed (d1, g1) = fixed (d, g) ∧ d1.proj = d.proj ∧ g1.polls = g.polls
      ∧ (d.view = lookAt env.libm d.eye.xyz ⟨0, 0, 0⟩ ⟨0, 1, 0⟩ →
          d1.view = lookAt env.libm d1.eye.xyz ⟨0, 0, 0⟩ ⟨0, 1, 0⟩)
      ∧ (d.autoRot = true → d1.view = lookAt env.libm d1.eye.xyz ⟨0, 0, 0⟩ ⟨0, 1, 0⟩)
      ∧ (d.autoRot = false → d1.eye = d.eye ∧ d1.view = d.view)
      ∧ ∃ g0, drawCube env d1 { glClear g with clocks := g.clocks + 1 } = some g0
          ∧ drawPart env d1 g0 = some g1 := by
  unfold display at h
  simp only [glfwGetTime, Option.bind_eq_some, Option.some.injEq, Prod.mk.injEq] at h
  obtain ⟨g0, hcube, g2, hpart, hd, hg⟩ := h
  subst hg
  obtain ⟨c1, c2, c3, c4, c5, c6, c7, c8, -⟩ := drawCube_spec env _ _ _ hcube
  obtain ⟨p1, p2, p3, p4, p5, p6, p7, -⟩ := drawPart_spec env _ _ _ hpart
  have hfix : fixed (d1, g2) = fixed (d, g) := by
    subst hd
    simp only [fixed, p1, p2, p3, c1, c2, c4]
    split <;> rfl
  refine ⟨hfix, ?_, ?_, ?_, ?_, ?_, ?_⟩
  · subst hd; split <;> rfl
  · rw [p4, c5]; rfl
  · intro hv; subst hd; split
    · rfl
    · exact hv
  · intro ha; subst hd; simp [ha]
  · intro ha; subst hd; simp [ha]
  · subst hd
    exact ⟨g0, hcube, hpart⟩
end Steps

section Cycles
variable {α : Type} [LinearOrderedField α]

/-- One iteration of the loop: two draws go on record, the cube without
capture and then the particles. -/
theorem loopBody_spec (env : Env α) (s s1 : UserData α × World α)
    (h : loopBody env s = some s1) :
    fixed s1 = fixed s
      ∧ (s.1.view = lookAt env.libm s.1.eye.xyz ⟨0, 0, 0⟩ ⟨0, 1, 0⟩ →
          s1.1.view = lookAt env.libm s1.1.eye.xyz ⟨0, 0, 0⟩ ⟨0, 1, 0⟩)
      ∧ ∃ dc dp, s1.2.draws = s.2.draws ++ [dc, dp] ∧ dc.feedback = none
          ∧ dp.vertexArray
              = (if s.1.frame &&& 0x1 ≠ 0 then s.1.vao VAO_PARTICLE1 else s.1.vao VAO_PARTICLE0)
          ∧ dp.source = s.2.attribBuffer dp.vertexArray
              (env.attribLocation (s.1.prg PRG_PARTICLE) "partPos")
          ∧ (s.2.feedbackObject = s.1.xfb XFB_PARTICLE → dp.feedback
              = some (if s.1.frame &&& 0x1 ≠ 0 then s.1.vbo VBO_PARTICLE0
                  else s.1.vbo VBO_PARTICLE1)) := by
  unfold loopBody at h
  simp only [Option.bind_eq_some, Option.some.injEq] at h
  obtain ⟨⟨d1, g1⟩, hdisp, hs1⟩ := h
  subst hs1
  obtain ⟨hfix, -, -, hview, -, -, g0, hcube, hpart⟩ := display_spec env _ _ _ _ hdisp
  obtain ⟨q1, q2, q3, -, q5⟩ := glfwPollEvents_spec env d1 g1
  obtain ⟨c1, c2, c3, c4, -, -, -, -, dc, hdc, hdcf, -⟩ := drawCube_spec env _ _ _ hcube
  obtain ⟨-, -, -, -, -, -, -, -, -, -, dp, hdp, -, hva, hsrc, hfb, -⟩ :=
    drawPart_spec env _ _ _ hpart
  have hf := hfix
  simp only [fixed, Prod.mk.injEq] at hf
  obtain ⟨f1, f2, f3, f4, f5, f6, f7, f8, f9, f10, f11⟩ := hf
  refine ⟨q1.trans hfix, fun hv => q5 (hview hv), dc, dp, ?_, hdcf, ?_, ?_, ?_⟩
  · rw [q2, hdp, hdc]
    simp [glClear, World.log]
  · rw [hva, f1, f6]
  · rw [hsrc, c1, f5]
    simp [glClear, World.log]
  · intro hfo
    rw [hfb, f1, f7]
    rw [c4, f8]
    simpa [glClear, World.log] using hfo

theorem cycles_succ (env : Env α) (n : Nat) (s : UserData α × World α) :
    cycles env (n + 1) s = (cycles env n s).bind (loopBody env) := rfl

/-- After `init` and any number of iterations the frame counter is 0, the
wiring is that of `init`, and every iteration has captured into
`VBO_PARTICLE1`. -/
theorem cycles_spec (env : Env α) (d : UserData α) (g : World α) (s0 : UserData α × World α)
    (hinit : init env d g = some s0) (n : Nat) (s : UserData α × World α)
    (h : cycles env n s0 = some s) :
    fixed s = fixed s0 ∧ s.1.frame = 0
      ∧ s.1.view = lookAt env.libm s.1.eye.xyz ⟨0, 0, 0⟩ ⟨0, 1, 0⟩
      ∧ s.2.captures = g.captures ++ List.replicate n (s0.1.vbo VBO_PARTICLE1) := by
  obtain ⟨d0, g0⟩ := s0
  obtain ⟨i1, i2, i3, i4, i5, i6, i7, i8, i9, i10, i11, i12, i13, -⟩ := init_spec env _ _ _ _ hinit
  induction n generalizing s with
  | zero =>
    simp only [cycles, Option.some.injEq] at h
    subst h
    refine ⟨rfl, i1, i7, ?_⟩
    simp [World.captures, i13]
  | succ n ih =>
    rw [cycles_succ] at h
    simp only [Option.bind_eq_some] at h
    obtain ⟨s1, h1, h2⟩ := h
    obtain ⟨e1, e2, e3, e4⟩ := ih s1 h1
    obtain ⟨l1, l2, dc, dp, hdraws, hdc, -, -, hfb⟩ := loopBody_spec env _ _ h2
    have hf := e1
    simp only [fixed, Prod.mk.injEq] at hf
    obtain ⟨f1, f2, f3, f4, f5, f6, f7, f8, f9, f10, f11⟩ := hf
    have hfix : fixed s = fixed (d0, g0) := l1.trans e1
    have hfr : s.1.frame = 0 := by
      have := hfix
      simp only [fixed, Prod.mk.injEq] at this
      rw [this.1, i1]
    refine ⟨hfix, hfr, l2 e3, ?_⟩
    have hfo : s1.2.feedbackObject = s1.1.xfb XFB_PARTICLE := by rw [f11, f8, i11]
    have hdpf := hfb hfo
    rw [e2] at hdpf
    simp only [Nat.zero_and, ne_eq, not_true_eq_false, if_false] at hdpf
    simp only [World.captures] at e4 ⊢
    rw [hdraws, List.filterMap_append, e4, List.replicate_succ', ← List.append_assoc]
    congr 1
    simp [List.filterMap_cons, hdc, hdpf, f7]
end Cycles

section RunLemmas
variable {α : Type} [LinearOrderedField α]

theorem dispatch_proj (env : Env α) (e : Event α) (s : UserData α × World α)
    (h : (Step.event e).keepsSize = true) : (dispatch env e s).1.proj = s.1.proj := by
  cases e with
  | resize w h' => simp [Step.keepsSize] at h
  | focus => rfl
  | key k a =>
    simp only [dispatch, onKey]
    split_ifs <;> rfl
  | mouseButton => rfl
  | cursorPos => rfl
  | cursorEnter => rfl
  | scroll dx dy =>
    simp only [dispatch, onScroll]
    split_ifs <;> rfl

/-- Any sequence of steps keeps the fixed part and the freshness of the view
matrix, and keeps the projection when no step is a resize. -/
theorem run_spec (env : Env α) (steps : List (Step α)) (s s1 : UserData α × World α)
    (h : run env steps s = some s1) :
    fixed s1 = fixed s
      ∧ (s.1.view = lookAt env.libm s.1.eye.xyz ⟨0, 0, 0⟩ ⟨0, 1, 0⟩ →
          s1.1.view = lookAt env.libm s1.1.eye.xyz ⟨0, 0, 0⟩ ⟨0, 1, 0⟩)
      ∧ (steps.all Step.keepsSize = true → s1.1.proj = s.1.proj) := by
  induction steps generalizing s with
  | nil =>
    simp only [run, Option.some.injEq] at h
    subst h
    exact ⟨rfl, fun h => h, fun _ => rfl⟩
  | cons st rest ih =>
    simp only [run, Option.bind_eq_some] at h
    obtain ⟨s2, hstep, hrest⟩ := h
    obtain ⟨r1, r2, r3⟩ := ih s2 hrest
    cases st with
    | display =>
      simp only [step] at hstep
      obtain ⟨d1, d2, -, d4, -⟩ := display_spec env _ _ _ _ hstep
      refine ⟨r1.trans d1, fun hv => r2 (d4 hv), fun hall => ?_⟩
      simp only [List.all_cons, Bool.and_eq_true] at hall
      rw [r3 hall.2, d2]
    | event e =>
      simp only [step, Option.some.injEq] at hstep
      subst hstep
      obtain ⟨e1, -, -, -, e5⟩ := dispatch_spec env e s
      refine ⟨r1.trans e1, fun hv => r2 (e5 hv), fun hall => ?_⟩
      simp only [List.all_cons, Bool.and_eq_true] at hall
      rw [r3 hall.2, dispatch_proj env e s hall.1]

/-- With both locations found `drawPart` returns. -/
theorem drawPart_isSome (env : Env α) (d : UserData α) (g : World α)
    (hm : 0 ≤ env.uniformLocation (d.prg PRG_PARTICLE) "mvpMat")
    (hl : 0 ≤ env.attribLocation (d.prg PRG_PARTICLE) "partPos") :
    ∃ g1, drawPart env d g = some g1 := by
  unfold drawPart
  simp only [glGetUniformLocation, glGetAttribLocation]
  rw [if_neg (by rw [not_or, not_lt, not_lt]; exact ⟨hm, hl⟩)]
  exact ⟨_, rfl⟩

/-- The draw `drawPart` puts on record in a state reached from `init`, for any
value of the frame counter. -/
theorem partDraw_spec (env : Env α) (d : UserData α) (g : World α)
    (s0 : UserData α × World α) (hinit : init env d g = some s0)
    (s : UserData α × World α) (hfix : fixed s = fixed s0)
    (hm : 0 ≤ env.uniformLocation (s.1.prg PRG_PARTICLE) "mvpMat") (f : Nat) :
    s.1.vao VAO_PARTICLE0 ≠ s.1.vao VAO_PARTICLE1
      ∧ s.1.vbo VBO_PARTICLE0 ≠ s.1.vbo VBO_PARTICLE1
      ∧ s.2.attribBuffer (s.1.vao VAO_PARTICLE0)
          (env.attribLocation (s.1.prg PRG_PARTICLE) "partPos") = s.1.vbo VBO_PARTICLE0
      ∧ s.2.attribBuffer (s.1.vao VAO_PARTICLE1)
          (env.attribLocation (s.1.prg PRG_PARTICLE) "partPos") = s.1.vbo VBO_PARTICLE1
      ∧ ∃ dr, partDraw env { s.1 with frame := f } s.2 = some dr
          ∧ dr.vertexArray
              = (if f &&& 0x1 ≠ 0 then s.1.vao VAO_PARTICLE1 else s.1.vao VAO_PARTICLE0)
          ∧ dr.source = s.2.attribBuffer dr.vertexArray
              (env.attribLocation (s.1.prg PRG_PARTICLE) "partPos")
          ∧ dr.feedback
              = some (if f &&& 0x1 ≠ 0 then s.1.vbo VBO_PARTICLE0 else s.1.vbo VBO_PARTICLE1) := by
  obtain ⟨d0, g0⟩ := s0
  obtain ⟨-, -, -, -, -, -, -, i8, i9, i10, i11, -, -, i14, i15, -⟩ :=
    init_spec env _ _ _ _ hinit
  simp only [fixed, Prod.mk.injEq] at hfix
  obtain ⟨f1, f2, f3, f4, f5, f6, f7, f8, f9, f10, f11⟩ := hfix
  rw [← f5, ← f6, ← f7, ← f9] at i14 i15
  rw [← f6] at i8
  rw [← f7] at i9
  rw [← f5] at i10
  rw [← f8, ← f11] at i11
  obtain ⟨g1, hg1⟩ := drawPart_isSome env { s.1 with frame := f } s.2 hm i10
  obtain ⟨-, -, -, -, -, -, -, -, -, -, dr, hdr, -, hva, hsrc, hfb, -⟩ :=
    drawPart_spec env _ _ _ hg1
  refine ⟨i8, i9, i14, i15, dr, ?_, hva, hsrc, hfb i11⟩
  simp [partDraw, hg1, hdr]
end RunLemmas

/-! ### Auxiliary facts -/

section Auxiliary

variable {α : Type} [LinearOrderedField α]

/-- The matrix both programs hold after `display`: the product of the
projection, view and model matrices of the record. -/
theorem display_uniform (env : Env α) (d d1 : UserData α) (g g1 : World α)
    (h : display env d g = some (d1, g1)) :
    g1.uniform (d1.prg PRG_CUBE) (env.uniformLocation (d1.prg PRG_CUBE) "mvpMat")
        = (d1.proj.mul d1.view).mul d1.model
      ∧ g1.uniform (d1.prg PRG_PARTICLE) (env.uniformLocation (d1.prg PRG_PARTICLE) "mvpMat")
        = (d1.proj.mul d1.view).mul d1.model := by
  obtain ⟨-, -, -, -, -, -, g0, hcube, hpart⟩ := display_spec env _ _ _ _ h
  obtain ⟨-, -, -, -, -, -, -, -, dc, -, -, -, -, hu⟩ := drawCube_spec env _ _ _ hcube
  obtain ⟨-, -, -, -, -, -, -, -, -, hv, -⟩ := drawPart_spec env _ _ _ hpart
  rw [hv]
  constructor
  · by_cases hp : d1.prg PRG_CUBE = d1.prg PRG_PARTICLE
    · rw [hp, Function.update_same]
      by_cases hl : env.uniformLocation (d1.prg PRG_PARTICLE) "mvpMat"
          = env.uniformLocation (d1.prg PRG_PARTICLE) "mvpMat"
      · rw [Function.update_same]
      · exact absurd rfl hl
    · rw [Function.update_noteq hp, hu]
  · rw [Function.update_same, Function.update_same]

end Auxiliary

/-- Sum of squares of the first three components of the stored point. -/
theorem initialParticle_dot (RAND_MAX r1 r2 r3 : ℕ) :
    (initialParticle (⟨Real.pi, Real.cos, Real.sin, Real.tan, Real.sqrt⟩ : Libm ℝ)
        RAND_MAX r1 r2 r3).xyz.dot
      (initialParticle (⟨Real.pi, Real.cos, Real.sin, Real.tan, Real.sqrt⟩ : Libm ℝ) RAND_MAX r1 r2 r3).xyz
      = ((r3 : ℝ) / (RAND_MAX : ℝ)) ^ 2 := by
  simp only [initialParticle, Vec4.xyz, Vec3.dot]
  have ha := Real.sin_sq_add_cos_sq (r1 : ℝ)
  have hb := Real.sin_sq_add_cos_sq (r2 : ℝ)
  have hc : Real.cos (r1 : ℝ) ^ 2 = 1 - Real.sin (r1 : ℝ) ^ 2 := by linarith
  have hd : Real.cos (r2 : ℝ) ^ 2 = 1 - Real.sin (r2 : ℝ) ^ 2 := by linarith
  have : ∀ p ca sa cb sb : ℝ, ca ^ 2 = 1 - sa ^ 2 → cb ^ 2 = 1 - sb ^ 2 →
      p * cb * ca * (p * cb * ca) + p * sb * (p * sb) + p * cb * sa * (p * cb * sa) = p ^ 2 := by
    intro p ca sa cb sb h1 h2
    have : p * cb * ca * (p * cb * ca) + p * sb * (p * sb) + p * cb * sa * (p * cb * sa)
        = p ^ 2 * (cb ^ 2 * (ca ^ 2 + sa ^ 2) + sb ^ 2) := by ring
    rw [this, h1, h2]; ring
  exact this _ _ _ _ _ hc hd

/-- The tangent of half the field of view of 55 degrees is positive. -/
theorem tan_half_fov_pos : 0 < Real.tan (55 * (Real.pi / 180) / 2) := by
  apply Real.tan_pos_of_pos_of_lt_pi_div_two
  · have := Real.pi_pos
    positivity
  · have := Real.pi_pos
    linarith

/-- An option that is `some` is `some` of its value. -/
theorem eq_some_getD {β : Type} (o : Option β) (x : β) (h : o.isSome = true) :
    o = some (o.getD x) := by
  cases o with
  | none => simp at h
  | some v => rfl

/-! ### The claims -/

section Claims

variable {α : Type} [LinearOrderedField α]

/-- C1. Cross-wiring. In every state reached from `init`, for each parity `p`
the buffer `drawPart` binds as transform feedback target when `frame & 1 = p`
is the buffer that feeds `partPos` in the vertex array `drawPart` selects when
`frame & 1 = 1 - p`; `VAO_PARTICLE0` reads `VBO_PARTICLE0` and `VAO_PARTICLE1`
reads `VBO_PARTICLE1`. -/
theorem cross_wiring (env : Env α) (d : UserData α) (g : World α)
    (s0 : UserData α × World α) (hinit : init env d g = some s0)
    (steps : List (Step α)) (s : UserData α × World α) (hrun : run env steps s0 = some s)
    (hm : 0 ≤ env.uniformLocation (s.1.prg PRG_PARTICLE) "mvpMat")
    (p : Nat) (hp : p = 0 ∨ p = 1) (f f' : Nat) (hf : f &&& 1 = p) (hf' : f' &&& 1 = 1 - p) :
    ∃ a b, partDraw env { s.1 with frame := f } s.2 = some a
      ∧ partDraw env { s.1 with frame := f' } s.2 = some b
      ∧ a.feedback = some (s.2.attribBuffer b.vertexArray
          (env.attribLocation (s.1.prg PRG_PARTICLE) "partPos"))
      ∧ b.source = s.2.attribBuffer b.vertexArray
          (env.attribLocation (s.1.prg PRG_PARTICLE) "partPos")
      ∧ s.2.attribBuffer (s.1.vao VAO_PARTICLE0)
          (env.attribLocation (s.1.prg PRG_PARTICLE) "partPos") = s.1.vbo VBO_PARTICLE0
      ∧ s.2.attribBuffer (s.1.vao VAO_PARTICLE1)
          (env.attribLocation (s.1.prg PRG_PARTICLE) "partPos") = s.1.vbo VBO_PARTICLE1 := by
  have hfix := (run_spec env steps s0 s hrun).1
  obtain ⟨-, -, w0, w1, a, ha, hava, -, hafb⟩ := partDraw_spec env d g s0 hinit s hfix hm f
  obtain ⟨-, -, -, -, b, hb, hbva, hbsrc, -⟩ := partDraw_spec env d g s0 hinit s hfix hm f'
  refine ⟨a, b, ha, hb, ?_, hbsrc, w0, w1⟩
  rw [hafb, hbva, hf, hf']
  rcases hp with hp | hp <;> subst hp <;> simp [w0, w1]

/-- Witness of C1: the sample run, with frame counters 4 and 7. -/
theorem cross_wiring_witness :
    init (sampleEnv : Env ℚ) sampleData freshWorld = some (startOf sampleEnv)
      ∧ run (sampleEnv : Env ℚ) sampleSteps (startOf sampleEnv)
          = some (runOf sampleEnv sampleSteps)
      ∧ ∃ a b, partDraw (sampleEnv : Env ℚ)
            { (runOf sampleEnv sampleSteps).1 with frame := 4 } (runOf sampleEnv sampleSteps).2
            = some a
          ∧ partDraw (sampleEnv : Env ℚ)
            { (runOf sampleEnv sampleSteps).1 with frame := 7 } (runOf sampleEnv sampleSteps).2
            = some b
          ∧ a.feedback = some b.source := by
  obtain ⟨a, b, h1, h2, h3, h4, -⟩ :=
    cross_wiring (sampleEnv : Env ℚ) sampleData freshWorld (startOf sampleEnv) rfl sampleSteps
      (runOf sampleEnv sampleSteps) rfl (le_refl 0) 0 (Or.inl rfl) 4 7 rfl rfl
  exact ⟨rfl, rfl, a, b, h1, h2, by rw [h3, h4]⟩

/-- C2, as the code behaves. The loop of `main` never advances the frame
counter, so the draw of `drawPart` in iteration `N + 2` captures into the same
buffer as the draw in iteration `N + 1`, namely `VBO_PARTICLE1`: the capture
target does not alternate. -/
theorem capture_target_repeats (env : Env α) (d : UserData α) (g : World α)
    (s0 : UserData α × World α) (hinit : init env d g = some s0)
    (N : Nat) (s : UserData α × World α) (hN : cycles env (N + 1) s0 = some s)
    (s1 : UserData α × World α) (h1 : loopBody env s = some s1) :
    s.2.captures.getLast? = some (s0.1.vbo VBO_PARTICLE1)
      ∧ s1.2.captures.getLast? = some (s0.1.vbo VBO_PARTICLE1)
      ∧ s0.1.vbo VBO_PARTICLE0 ≠ s0.1.vbo VBO_PARTICLE1 := by
  have hN1 : cycles env (N + 2) s0 = some s1 := by
    rw [cycles_succ, hN]; exact h1
  have e1 := (cycles_spec env d g s0 hinit (N + 1) s hN).2.2.2
  have e2 := (cycles_spec env d g s0 hinit (N + 2) s1 hN1).2.2.2
  obtain ⟨d0, g0⟩ := s0
  have hne := (init_spec env _ _ _ _ hinit).2.2.2.2.2.2.2.2.1
  refine ⟨?_, ?_, hne⟩
  · rw [e1, List.replicate_succ', ← List.append_assoc]
    simp
  · rw [e2, List.replicate_succ', ← List.append_assoc]
    simp

/-- Witness of C2: in the sample environment the particle buffers are named 7
and 8, and the draws of `drawPart` in the first and in the second iteration
both capture into buffer 8. -/
theorem capture_target_repeats_witness :
    (init (sampleEnv : Env ℚ) sampleData freshWorld = some (startOf sampleEnv)
      ∧ cycles (sampleEnv : Env ℚ) 1 (startOf sampleEnv) = some (afterOf sampleEnv 1)
      ∧ loopBody (sampleEnv : Env ℚ) (afterOf sampleEnv 1)
          = some ((loopBody sampleEnv (afterOf sampleEnv 1)).getD (afterOf sampleEnv 1))
      ∧ (startOf (sampleEnv : Env ℚ)).1.vbo VBO_PARTICLE0 = 7
      ∧ (startOf (sampleEnv : Env ℚ)).1.vbo VBO_PARTICLE1 = 8)
      ∧ (afterOf (sampleEnv : Env ℚ) 1).2.captures.getLast?
          = some ((startOf (sampleEnv : Env ℚ)).1.vbo VBO_PARTICLE1)
      ∧ ((loopBody (sampleEnv : Env ℚ) (afterOf sampleEnv 1)).getD
            (afterOf sampleEnv 1)).2.captures.getLast?
          = some ((startOf (sampleEnv : Env ℚ)).1.vbo VBO_PARTICLE1)
      ∧ (startOf (sampleEnv : Env ℚ)).1.vbo VBO_PARTICLE0
          ≠ (startOf (sampleEnv : Env ℚ)).1.vbo VBO_PARTICLE1 :=
  ⟨⟨rfl, eq_some_getD _ _ (by decide), eq_some_getD _ _ (by decide), by decide, by decide⟩,
    capture_target_repeats (sampleEnv : Env ℚ) sampleData freshWorld (startOf sampleEnv) rfl 0
      (afterOf sampleEnv 1) (eq_some_getD _ _ (by decide))
      ((loopBody sampleEnv (afterOf sampleEnv 1)).getD (afterOf sampleEnv 1))
      (eq_some_getD _ _ (by decide))⟩

/-- C3. End to end with `popCount = 2`: after `init` buffer `VBO_PARTICLE0`
holds the two generated points; after the first `display` (`frame = 0`, the
shaders pass every record through) `VBO_PARTICLE1` holds the same two records,
`VBO_PARTICLE0` is unchanged, and the vertices `drawPart` drew are the records
of `VBO_PARTICLE0`. -/
theorem first_frame_copies (env : Env α) (d : UserData α) (g : World α)
    (s0 : UserData α × World α) (hinit : init env d g = some s0)
    (s1 : UserData α × World α) (hdisp : display env s0.1 s0.2 = some s1) :
    s0.1.popCount = 2 ∧ s0.1.frame = 0
      ∧ s0.2.store (s0.1.vbo VBO_PARTICLE0)
          = [some (initialParticle env.libm env.RAND_MAX (env.rand g.rands)
                (env.rand (g.rands + 1)) (env.rand (g.rands + 2))),
             some (initialParticle env.libm env.RAND_MAX (env.rand (g.rands + 3))
                (env.rand (g.rands + 4)) (env.rand (g.rands + 5)))]
      ∧ s1.2.store (s0.1.vbo VBO_PARTICLE1) = s0.2.store (s0.1.vbo VBO_PARTICLE0)
      ∧ s1.2.store (s0.1.vbo VBO_PARTICLE0) = s0.2.store (s0.1.vbo VBO_PARTICLE0)
      ∧ ∃ dr, s1.2.draws.getLast? = some dr
          ∧ dr.source = s0.1.vbo VBO_PARTICLE0
          ∧ dr.feedback = some (s0.1.vbo VBO_PARTICLE1)
          ∧ dr.vertices = s0.2.store (s0.1.vbo VBO_PARTICLE0) := by
  obtain ⟨d0, g0⟩ := s0
  obtain ⟨d1, g1⟩ := s1
  obtain ⟨i1, i2, -, -, -, -, -, i8, i9, i10, i11, -, -, i14, i15, i16, -, i18⟩ :=
    init_spec env _ _ _ _ hinit
  obtain ⟨hfix, -, -, -, -, -, gc, hcube, hpart⟩ := display_spec env _ _ _ _ hdisp
  obtain ⟨c1, c2, c3, c4, -⟩ := drawCube_spec env _ _ _ hcube
  obtain ⟨-, -, -, -, -, -, -, -, -, -, dr, hdr, -, hva, hsrc, hfb, hcopy⟩ :=
    drawPart_spec env _ _ _ hpart
  simp only [fixed, Prod.mk.injEq] at hfix
  obtain ⟨f1, f2, f3, f4, f5, f6, f7, f8, f9, f10, f11⟩ := hfix
  simp only at i1 i2 i8 i9 i10 i11 i14 i15 i16 i18 ⊢
  have hfo : gc.feedbackObject = d1.xfb XFB_PARTICLE := by
    rw [c4, f8]; simpa [glClear, World.log] using i11
  rw [f1, i1] at hva hfb
  simp only [Nat.zero_and, ne_eq, not_true_eq_false, if_false] at hva hfb
  have hsrc' : dr.source = d0.vbo VBO_PARTICLE0 := by
    rw [hsrc, hva, c1, f5, f6]
    simpa [glClear, World.log] using i14
  have hfb' := hfb hfo
  have hen : gc.attribEnabled dr.vertexArray
      (env.attribLocation (d1.prg PRG_PARTICLE) "partPos") = true := by
    rw [hva, c2, f5, f6]
    simpa [glClear, World.log] using i16
  have hne : dr.source ≠ d1.vbo VBO_PARTICLE1 := by
    rw [hsrc', f7]; exact i9
  obtain ⟨hverts, hstore⟩ := hcopy _ hfo hfb' hne hen
  have hgc : gc.store (d0.vbo VBO_PARTICLE0) = g0.store (d0.vbo VBO_PARTICLE0) := by
    rw [c3]; simp [glClear, World.log]
  rw [hsrc', hgc, f2, i2, i18] at hverts hstore
  refine ⟨i2, i1, i18, ?_, ?_, dr, ?_, hsrc', ?_, ?_⟩
  · rw [hstore, f7, Function.update_same]
    simp [capture, i18]
  · rw [hstore, f7, Function.update_noteq i9, c3]
    simp [glClear, World.log]
  · rw [hdr]; simp
  · rw [hfb', f7]
  · rw [hverts]; simp [i18]

/-- Witness of C3: `init` and the first frame in the sample environment. -/
theorem first_frame_copies_witness :
    init (sampleEnv : Env ℚ) sampleData freshWorld = some (startOf sampleEnv)
      ∧ display (sampleEnv : Env ℚ) (startOf sampleEnv).1 (startOf sampleEnv).2
          = some (runOf sampleEnv [.display])
      ∧ (runOf (sampleEnv : Env ℚ) [.display]).2.store
            ((startOf (sampleEnv : Env ℚ)).1.vbo VBO_PARTICLE1)
          = (startOf (sampleEnv : Env ℚ)).2.store
              ((startOf (sampleEnv : Env ℚ)).1.vbo VBO_PARTICLE0) :=
  ⟨rfl, rfl,
    (first_frame_copies (sampleEnv : Env ℚ) sampleData freshWorld (startOf sampleEnv) rfl
      (runOf sampleEnv [.display]) rfl).2.2.2.1⟩

/-- C4, counterexample. With `RAND_MAX = 2147483647`, when `rand()` returns 0, 0
and `RAND_MAX` the point stored is `(1, 0, 0, 1)`: the length of its first
three components is 1, which is not below 1. -/
theorem initialParticle_norm_not_lt_one :
    ¬ (Real.sqrt ((initialParticle (⟨Real.pi, Real.cos, Real.sin, Real.tan, Real.sqrt⟩ : Libm ℝ)
          2147483647 0 0 2147483647).xyz.dot
        (initialParticle (⟨Real.pi, Real.cos, Real.sin, Real.tan, Real.sqrt⟩ : Libm ℝ)
          2147483647 0 0 2147483647).xyz) < 1) := by
  have : (initialParticle (⟨Real.pi, Real.cos, Real.sin, Real.tan, Real.sqrt⟩ : Libm ℝ)
      2147483647 0 0 2147483647).xyz.dot
        (initialParticle (⟨Real.pi, Real.cos, Real.sin, Real.tan, Real.sqrt⟩ : Libm ℝ)
          2147483647 0 0 2147483647).xyz = 1 := by
    simp [initialParticle, Vec4.xyz, Vec3.dot]
  rw [this, Real.sqrt_one]
  exact lt_irrefl 1

/-- C4, amended. For every triple `rand()` can return, in exact real
arithmetic the point stored has fourth component 1 and the length of its first
three components is `r3 / RAND_MAX`, which lies in the closed interval from 0
to 1 and is below 1 exactly when the third value is below `RAND_MAX`. -/
theorem initialParticle_norm (RAND_MAX r1 r2 r3 : ℕ) (hmax : 0 < RAND_MAX)
    (_h1 : r1 ≤ RAND_MAX) (_h2 : r2 ≤ RAND_MAX) (h3 : r3 ≤ RAND_MAX) :
    (initialParticle (⟨Real.pi, Real.cos, Real.sin, Real.tan, Real.sqrt⟩ : Libm ℝ)
        RAND_MAX r1 r2 r3).w = 1
      ∧ Real.sqrt ((initialParticle (⟨Real.pi, Real.cos, Real.sin, Real.tan, Real.sqrt⟩ : Libm ℝ)
            RAND_MAX r1 r2 r3).xyz.dot
          (initialParticle (⟨Real.pi, Real.cos, Real.sin, Real.tan, Real.sqrt⟩ : Libm ℝ)
            RAND_MAX r1 r2 r3).xyz) = (r3 : ℝ) / (RAND_MAX : ℝ)
      ∧ 0 ≤ (r3 : ℝ) / (RAND_MAX : ℝ)
      ∧ (r3 : ℝ) / (RAND_MAX : ℝ) ≤ 1
      ∧ ((r3 : ℝ) / (RAND_MAX : ℝ) < 1 ↔ r3 < RAND_MAX) := by
  have hM : (0 : ℝ) < (RAND_MAX : ℝ) := by exact_mod_cast hmax
  have h0 : 0 ≤ (r3 : ℝ) / (RAND_MAX : ℝ) := div_nonneg (Nat.cast_nonneg _) hM.le
  refine ⟨rfl, ?_, h0, ?_, ?_⟩
  · rw [initialParticle_dot, Real.sqrt_sq h0]
  · rw [div_le_one hM]; exact_mod_cast h3
  · rw [div_lt_one hM]; exact_mod_cast Iff.rfl

/-- Witness of C4 amended: `RAND_MAX = 32767` and the values 1, 2, 3. -/
theorem initialParticle_norm_witness :
    (0 < 32767 ∧ 1 ≤ 32767 ∧ 2 ≤ 32767 ∧ 3 ≤ 32767) ∧
    Real.sqrt ((initialParticle (⟨Real.pi, Real.cos, Real.sin, Real.tan, Real.sqrt⟩ : Libm ℝ)
          32767 1 2 3).xyz.dot
        (initialParticle (⟨Real.pi, Real.cos, Real.sin, Real.tan, Real.sqrt⟩ : Libm ℝ)
          32767 1 2 3).xyz)
      = ((3 : ℕ) : ℝ) / ((32767 : ℕ) : ℝ) :=
  ⟨by decide, (initialParticle_norm 32767 1 2 3 (by decide) (by decide) (by decide)
    (by decide)).2.1⟩

/-- C5. When either list is empty or the lengths differ, `loadShaders` returns
0 and leaves the context as it found it: no call is added to the log, so no
`glCreateProgram`, `glCreateShader` or later call is issued. -/
theorem loadShaders_precondition {α : Type} (env : Env α) (type : List GLenum)
    (shader xfb : List String) (g : World α)
    (h : type = [] ∨ shader = [] ∨ type.length ≠ shader.length) :
    (loadShaders env type shader xfb g).1 = 0
      ∧ (loadShaders env type shader xfb g).2 = g
      ∧ (loadShaders env type shader xfb g).2.trace = g.trace := by
  have key : loadShaders env type shader xfb g = (0, g) := by
    unfold loadShaders
    rcases h with h | h | h
    · simp [h]
    · simp [h]
    · by_cases he : (type.isEmpty || shader.isEmpty) = true
      · rw [if_pos he]
      · rw [if_neg he, if_pos h]
  rw [key]
  exact ⟨rfl, rfl, rfl⟩

/-- Witness of C5: the stages vertex and fragment with no texts. -/
theorem loadShaders_precondition_witness :
    (loadShaders (sampleEnv : Env ℚ) [GL_VERTEX_SHADER, GL_FRAGMENT_SHADER] [] [] freshWorld).1 = 0
      ∧ (loadShaders (sampleEnv : Env ℚ) [GL_VERTEX_SHADER, GL_FRAGMENT_SHADER] [] []
          freshWorld).2.trace = [] :=
  ⟨(loadShaders_precondition sampleEnv [GL_VERTEX_SHADER, GL_FRAGMENT_SHADER] [] [] freshWorld
      (Or.inr (Or.inl rfl))).1,
   (loadShaders_precondition sampleEnv [GL_VERTEX_SHADER, GL_FRAGMENT_SHADER] [] [] freshWorld
      (Or.inr (Or.inl rfl))).2.2⟩

/-- C6. In every state reached from `init` and for every value of the frame
counter, the draw call of `drawPart` captures into a buffer other than the one
that feeds `partPos` in the vertex array it selects; the two particle buffers
carry distinct names. -/
theorem no_buffer_read_and_written (env : Env α) (d : UserData α) (g : World α)
    (s0 : UserData α × World α) (hinit : init env d g = some s0)
    (steps : List (Step α)) (s : UserData α × World α) (hrun : run env steps s0 = some s)
    (hm : 0 ≤ env.uniformLocation (s.1.prg PRG_PARTICLE) "mvpMat") (f : Nat) :
    s.1.vbo VBO_PARTICLE0 ≠ s.1.vbo VBO_PARTICLE1
      ∧ ∃ dr t, partDraw env { s.1 with frame := f } s.2 = some dr
          ∧ dr.source = s.2.attribBuffer dr.vertexArray
              (env.attribLocation (s.1.prg PRG_PARTICLE) "partPos")
          ∧ dr.feedback = some t ∧ t ≠ dr.source := by
  have hfix := (run_spec env steps s0 s hrun).1
  obtain ⟨-, hne, w0, w1, dr, hdr, hva, hsrc, hfb⟩ :=
    partDraw_spec env d g s0 hinit s hfix hm f
  refine ⟨hne, dr, _, hdr, hsrc, hfb, ?_⟩
  rw [hsrc, hva]
  by_cases hpar : f &&& 1 ≠ 0
  · rw [if_pos hpar, if_pos hpar, w1]
    exact hne
  · rw [if_neg hpar, if_neg hpar, w0]
    exact hne.symm

/-- Witness of C6: the sample run, with frame counter 5. -/
theorem no_buffer_read_and_written_witness :
    init (sampleEnv : Env ℚ) sampleData freshWorld = some (startOf sampleEnv)
      ∧ run (sampleEnv : Env ℚ) sampleSteps (startOf sampleEnv)
          = some (runOf sampleEnv sampleSteps)
      ∧ ∃ dr t, partDraw (sampleEnv : Env ℚ)
            { (runOf sampleEnv sampleSteps).1 with frame := 5 } (runOf sampleEnv sampleSteps).2
            = some dr
          ∧ dr.feedback = some t ∧ t ≠ dr.source := by
  obtain ⟨-, dr, t, h1, -, h3, h4⟩ :=
    no_buffer_read_and_written (sampleEnv : Env ℚ) sampleData freshWorld (startOf sampleEnv) rfl
      sampleSteps (runOf sampleEnv sampleSteps) rfl (le_refl 0) 5
  exact ⟨rfl, rfl, dr, t, h1, h3, h4⟩

/-- C7. Camera freshness. In every state reached from `init` by any sequence
of `display` calls and callbacks the view matrix is `lookAt` of the first three
components of the current `eye`, the origin and `(0, 1, 0)`. The operations
that assign `eye` (`onScroll`, and `display` with `autoRot` set) assign `view`
from the new `eye`; `onResize`, `onKey` and `display` without `autoRot` leave
both `eye` and `view` as they are. -/
theorem view_follows_eye (env : Env α) (d : UserData α) (g : World α)
    (s0 : UserData α × World α) (hinit : init env d g = some s0)
    (steps : List (Step α)) (s : UserData α × World α) (hrun : run env steps s0 = some s) :
    s.1.view = lookAt env.libm s.1.eye.xyz ⟨0, 0, 0⟩ ⟨0, 1, 0⟩
      ∧ (∀ dy d1 g1, (onScroll env dy d1 g1).1.view
          = lookAt env.libm (onScroll env dy d1 g1).1.eye.xyz ⟨0, 0, 0⟩ ⟨0, 1, 0⟩)
      ∧ (∀ d1 g1 d2 g2, display env d1 g1 = some (d2, g2) → d1.autoRot = true →
          d2.view = lookAt env.libm d2.eye.xyz ⟨0, 0, 0⟩ ⟨0, 1, 0⟩)
      ∧ (∀ d1 g1 d2 g2, display env d1 g1 = some (d2, g2) → d1.autoRot = false →
          d2.eye = d1.eye ∧ d2.view = d1.view)
      ∧ (∀ w h d1 g1, (onResize env w h d1 g1).1.eye = d1.eye
          ∧ (onResize env w h d1 g1).1.view = d1.view)
      ∧ (∀ k a (d1 : UserData α) (g1 : World α), (onKey k a d1 g1).1.eye = d1.eye
          ∧ (onKey k a d1 g1).1.view = d1.view) := by
  obtain ⟨d0, g0⟩ := s0
  have hv0 := (init_spec env _ _ _ _ hinit).2.2.2.2.2.2.1
  refine ⟨(run_spec env steps _ s hrun).2.1 hv0, ?_, ?_, ?_, ?_, ?_⟩
  · intro dy d1 g1
    rfl
  · intro d1 g1 d2 g2 h ha
    exact (display_spec env _ _ _ _ h).2.2.2.2.1 ha
  · intro d1 g1 d2 g2 h ha
    exact (display_spec env _ _ _ _ h).2.2.2.2.2.1 ha
  · intro w h d1 g1
    exact ⟨rfl, rfl⟩
  · intro k a d1 g1
    simp only [onKey]
    split_ifs <;> exact ⟨rfl, rfl⟩

/-- Witness of C7: the sample run. -/
theorem view_follows_eye_witness :
    init (sampleEnv : Env ℚ) sampleData freshWorld = some (startOf sampleEnv)
      ∧ run (sampleEnv : Env ℚ) sampleSteps (startOf sampleEnv)
          = some (runOf sampleEnv sampleSteps)
      ∧ (runOf (sampleEnv : Env ℚ) sampleSteps).1.view
          = lookAt sampleLibm (runOf (sampleEnv : Env ℚ) sampleSteps).1.eye.xyz
              ⟨0, 0, 0⟩ ⟨0, 1, 0⟩ :=
  ⟨rfl, rfl,
    (view_follows_eye (sampleEnv : Env ℚ) sampleData freshWorld (startOf sampleEnv) rfl
      sampleSteps (runOf sampleEnv sampleSteps) rfl).1⟩

/-- C8. Scroll is not a round trip: one `onScroll` with `dy > 0` followed by
one with `dy < 0` leaves every component of `eye`, `w` included, multiplied by
`(11/10) * (9/10) = 99/100`; a non-zero `eye` therefore changes, and its length
(of all four components, and of the first three) is `99/100` of the original. -/
theorem onScroll_up_down (env : Env ℝ) (d : UserData ℝ) (g : World ℝ) (up down : ℝ)
    (hup : 0 < up) (hdown : down < 0) :
    (onScroll env down (onScroll env up d g).1 (onScroll env up d g).2).1.eye
        = ⟨d.eye.x * (99 / 100), d.eye.y * (99 / 100), d.eye.z * (99 / 100),
            d.eye.w * (99 / 100)⟩
      ∧ (11 / 10 * (9 / 10) : ℝ) = 99 / 100
      ∧ (d.eye ≠ ⟨0, 0, 0, 0⟩ →
          (onScroll env down (onScroll env up d g).1 (onScroll env up d g).2).1.eye ≠ d.eye)
      ∧ Real.sqrt ((onScroll env down (onScroll env up d g).1 (onScroll env up d g).2).1.eye.dot
            (onScroll env down (onScroll env up d g).1 (onScroll env up d g).2).1.eye)
          = 99 / 100 * Real.sqrt (d.eye.dot d.eye)
      ∧ Real.sqrt ((onScroll env down (onScroll env up d g).1 (onScroll env up d g).2).1.eye.xyz.dot
            (onScroll env down (onScroll env up d g).1 (onScroll env up d g).2).1.eye.xyz)
          = 99 / 100 * Real.sqrt (d.eye.xyz.dot d.eye.xyz) := by
  have hnd : ¬ (down > 0) := not_lt.mpr hdown.le
  have heye : (onScroll env down (onScroll env up d g).1 (onScroll env up d g).2).1.eye
      = ⟨d.eye.x * (99 / 100), d.eye.y * (99 / 100), d.eye.z * (99 / 100),
          d.eye.w * (99 / 100)⟩ := by
    simp only [onScroll, gt_iff_lt, hup, hdown, hnd, if_true, if_false, Vec4.scale,
      Vec4.mk.injEq]
    refine ⟨?_, ?_, ?_, ?_⟩ <;> ring
  rw [heye]
  refine ⟨rfl, by norm_num, ?_, ?_, ?_⟩
  · intro hne heq
    apply hne
    generalize d.eye = e at heq
    obtain ⟨x, y, z, w⟩ := e
    simp only [Vec4.mk.injEq] at heq
    obtain ⟨hx, hy, hz, hw⟩ := heq
    have e : ∀ a : ℝ, a * (99 / 100) = a → a = 0 := fun a h => by linarith
    rw [e x hx, e y hy, e z hz, e w hw]
  · have : ∀ v : Vec4 ℝ, Vec4.dot ⟨v.x * (99 / 100), v.y * (99 / 100), v.z * (99 / 100),
        v.w * (99 / 100)⟩ ⟨v.x * (99 / 100), v.y * (99 / 100), v.z * (99 / 100),
        v.w * (99 / 100)⟩ = (99 / 100) ^ 2 * v.dot v := by
      intro v; simp only [Vec4.dot]; ring
    rw [this, Real.sqrt_mul (by positivity), Real.sqrt_sq (by norm_num)]
  · have : ∀ v : Vec4 ℝ, Vec3.dot (Vec4.xyz ⟨v.x * (99 / 100), v.y * (99 / 100),
        v.z * (99 / 100), v.w * (99 / 100)⟩) (Vec4.xyz ⟨v.x * (99 / 100), v.y * (99 / 100),
        v.z * (99 / 100), v.w * (99 / 100)⟩) = (99 / 100) ^ 2 * v.xyz.dot v.xyz := by
      intro v; simp only [Vec4.xyz, Vec3.dot]; ring
    rw [this, Real.sqrt_mul (by positivity), Real.sqrt_sq (by norm_num)]

/-- Witness of C8: from the initial eye `(0, 0, 3.2, 1)`, a scroll by `1` and a
scroll by `-1`. -/
theorem onScroll_up_down_witness :
    (0 : ℝ) < 1 ∧ (-1 : ℝ) < 0 ∧
    (onScroll (sampleEnv : Env ℝ) (-1)
        (onScroll sampleEnv 1 { (sampleData : UserData ℝ) with eye := ⟨0, 0, 32 / 10, 1⟩ }
          freshWorld).1
        (onScroll sampleEnv 1 { (sampleData : UserData ℝ) with eye := ⟨0, 0, 32 / 10, 1⟩ }
          freshWorld).2).1.eye
      = (⟨0 * (99 / 100), 0 * (99 / 100), 32 / 10 * (99 / 100), 1 * (99 / 100)⟩ : Vec4 ℝ) :=
  ⟨by norm_num, by norm_num,
    (onScroll_up_down sampleEnv { (sampleData : UserData ℝ) with eye := ⟨0, 0, 32 / 10, 1⟩ }
      freshWorld 1 (-1) (by norm_num) (by norm_num)).1⟩

/-- C9. In every state reached from `init`, `onResize w h` with `h > 0` sets
the projection to `perspective (radians 55) (w / h) 0.01 100` with `w / h` the
quotient of reals, so that `proj[1][1] / proj[0][0] = w / h`. Steps other than
a resize keep that projection, and the next `display` uploads the product of
that projection with the view and model matrices for both programs. -/
theorem onResize_projection (env : Env ℝ) (hpi : env.libm.pi = Real.pi)
    (htan : env.libm.tan = Real.tan) (d : UserData ℝ) (g : World ℝ)
    (s0 : UserData ℝ × World ℝ) (hinit : init env d g = some s0)
    (steps : List (Step ℝ)) (s : UserData ℝ × World ℝ) (hrun : run env steps s0 = some s)
    (w h : Int) (hh : 0 < h) :
    (onResize env w h s.1 s.2).1.proj
        = perspective env.libm (radians env.libm 55) ((w : ℝ) / (h : ℝ)) (1 / 100) 100
      ∧ (onResize env w h s.1 s.2).1.proj 1 1 / (onResize env w h s.1 s.2).1.proj 0 0
          = (w : ℝ) / (h : ℝ)
      ∧ ∀ (later : List (Step ℝ)) (s2 : UserData ℝ × World ℝ),
          later.all Step.keepsSize = true →
          run env later (onResize env w h s.1 s.2) = some s2 →
          s2.1.proj = (onResize env w h s.1 s.2).1.proj
          ∧ ∀ s3, display env s2.1 s2.2 = some s3 →
              s3.1.proj = (onResize env w h s.1 s.2).1.proj
              ∧ s3.2.uniform (s3.1.prg PRG_CUBE)
                    (env.uniformLocation (s3.1.prg PRG_CUBE) "mvpMat")
                  = ((perspective env.libm (radians env.libm 55) ((w : ℝ) / (h : ℝ))
                      (1 / 100) 100).mul s3.1.view).mul s3.1.model
              ∧ s3.2.uniform (s3.1.prg PRG_PARTICLE)
                    (env.uniformLocation (s3.1.prg PRG_PARTICLE) "mvpMat")
                  = ((perspective env.libm (radians env.libm 55) ((w : ℝ) / (h : ℝ))
                      (1 / 100) 100).mul s3.1.view).mul s3.1.model := by
  obtain ⟨d0, g0⟩ := s0
  have hfov0 := (init_spec env _ _ _ _ hinit).2.2.2.1
  have hfix := (run_spec env steps _ s hrun).1
  simp only [fixed, Prod.mk.injEq] at hfix
  have hfov : s.1.fov = 55 := by rw [hfix.2.2.1]; exact hfov0
  have hproj : (onResize env w h s.1 s.2).1.proj
      = perspective env.libm (radians env.libm 55) ((w : ℝ) / (h : ℝ)) (1 / 100) 100 := by
    simp only [onResize, hfov]
  have ht : env.libm.tan (radians env.libm 55 / 2) ≠ 0 := by
    rw [htan, radians, hpi]
    exact ne_of_gt tan_half_fov_pos
  have hhr : (h : ℝ) ≠ 0 := by
    have : (0 : ℝ) < (h : ℝ) := by exact_mod_cast hh
    exact ne_of_gt this
  refine ⟨hproj, ?_, ?_⟩
  · rw [hproj]
    simp only [perspective]
    norm_num
    by_cases hw : (w : ℝ) = 0
    · simp [hw]
    · field_simp
  · intro later s2 hall hlater
    have hp2 := (run_spec env later _ s2 hlater).2.2 hall
    refine ⟨hp2, fun s3 h3 => ?_⟩
    obtain ⟨d3, g3⟩ := s3
    have hp3 := (display_spec env _ _ _ _ h3).2.1
    obtain ⟨u1, u2⟩ := display_uniform env _ _ _ _ h3
    simp only at hp3 u1 u2 ⊢
    rw [← hproj, ← hp2, ← hp3]
    exact ⟨rfl, u1, u2⟩

/-- Witness of C9: a resize to 800 by 600 after the first frame, with the
real tangent. -/
theorem onResize_projection_witness :
    (0 : Int) < 600
      ∧ init ((sampleEnv : Env ℝ).withLibm ⟨Real.pi, Real.cos, Real.sin, Real.tan, Real.sqrt⟩)
          sampleData freshWorld
          = some (startOf
              ((sampleEnv : Env ℝ).withLibm ⟨Real.pi, Real.cos, Real.sin, Real.tan, Real.sqrt⟩))
      ∧ (onResize ((sampleEnv : Env ℝ).withLibm
              ⟨Real.pi, Real.cos, Real.sin, Real.tan, Real.sqrt⟩) 800 600
            (runOf ((sampleEnv : Env ℝ).withLibm
              ⟨Real.pi, Real.cos, Real.sin, Real.tan, Real.sqrt⟩) [.display]).1
            (runOf ((sampleEnv : Env ℝ).withLibm
              ⟨Real.pi, Real.cos, Real.sin, Real.tan, Real.sqrt⟩) [.display]).2).1.proj 1 1
          / (onResize ((sampleEnv : Env ℝ).withLibm
              ⟨Real.pi, Real.cos, Real.sin, Real.tan, Real.sqrt⟩) 800 600
            (runOf ((sampleEnv : Env ℝ).withLibm
              ⟨Real.pi, Real.cos, Real.sin, Real.tan, Real.sqrt⟩) [.display]).1
            (runOf ((sampleEnv : Env ℝ).withLibm
              ⟨Real.pi, Real.cos, Real.sin, Real.tan, Real.sqrt⟩) [.display]).2).1.proj 0 0
          = ((800 : Int) : ℝ) / ((600 : Int) : ℝ) :=
  ⟨by decide, rfl,
    (onResize_projection
      ((sampleEnv : Env ℝ).withLibm ⟨Real.pi, Real.cos, Real.sin, Real.tan, Real.sqrt⟩) rfl rfl
      sampleData freshWorld _ rfl [.display] _ rfl 800 600 (by decide)).2.1⟩

/-- C10. After `init` and any number `N` of iterations of the loop of `main`
the frame counter is still 0, and the draw call of `drawPart` in the next
iteration uses `VAO_PARTICLE0`, reads `VBO_PARTICLE0` and captures into
`VBO_PARTICLE1`. No sequence of `display` calls and callbacks changes the
counter either. -/
theorem frame_stays_zero (env : Env α) (d : UserData α) (g : World α)
    (s0 : UserData α × World α) (hinit : init env d g = some s0)
    (N : Nat) (s : UserData α × World α) (hN : cycles env N s0 = some s) :
    s0.1.frame = 0 ∧ s.1.frame = 0
      ∧ (∀ s1, loopBody env s = some s1 →
          s1.1.frame = 0
          ∧ ∃ dr, s1.2.draws.getLast? = some dr
            ∧ dr.vertexArray = s.1.vao VAO_PARTICLE0
            ∧ dr.source = s.1.vbo VBO_PARTICLE0
            ∧ dr.feedback = some (s.1.vbo VBO_PARTICLE1))
      ∧ ∀ steps s2, run env steps s0 = some s2 → s2.1.frame = 0 := by
  obtain ⟨hfix, hfr, -, -⟩ := cycles_spec env d g s0 hinit N s hN
  have h0 := (cycles_spec env d g s0 hinit 0 s0 rfl).2.1
  refine ⟨h0, hfr, fun s1 h1 => ?_, fun steps s2 h2 => ?_⟩
  · obtain ⟨-, hfr1, -, -⟩ := cycles_spec env d g s0 hinit (N + 1) s1 (by
      rw [cycles_succ, hN]; exact h1)
    obtain ⟨l1, -, dc, dp, hdraws, -, hva, hsrc, hfb⟩ := loopBody_spec env _ _ h1
    obtain ⟨d0, g0⟩ := s0
    obtain ⟨-, -, -, -, -, -, -, i8, i9, i10, i11, -, -, i14, i15, -⟩ :=
      init_spec env _ _ _ _ hinit
    simp only [fixed, Prod.mk.injEq] at hfix
    obtain ⟨f1, f2, f3, f4, f5, f6, f7, f8, f9, f10, f11⟩ := hfix
    rw [← f5, ← f6, ← f7, ← f9] at i14
    rw [← f8, ← f11] at i11
    rw [hfr] at hva hfb
    simp only [Nat.zero_and, ne_eq, not_true_eq_false, if_false] at hva hfb
    refine ⟨hfr1, dp, ?_, hva, ?_, hfb i11⟩
    · rw [hdraws]; simp
    · rw [hsrc, hva, i14]
  · have hf2 := (run_spec env steps s0 s2 h2).1
    simp only [fixed, Prod.mk.injEq] at hf2
    rw [hf2.1, h0]

/-- Witness of C10: three iterations in the sample environment. -/
theorem frame_stays_zero_witness :
    init (sampleEnv : Env ℚ) sampleData freshWorld = some (startOf sampleEnv)
      ∧ cycles (sampleEnv : Env ℚ) 3 (startOf sampleEnv) = some (afterOf sampleEnv 3)
      ∧ (afterOf (sampleEnv : Env ℚ) 3).1.frame = 0 :=
  ⟨rfl, rfl,
    (frame_stays_zero (sampleEnv : Env ℚ) sampleData freshWorld (startOf sampleEnv) rfl 3
      (afterOf sampleEnv 3) rfl).2.1⟩

end Claims

end NPart
